import Mathlib

/-!
Verification development for the fan fault-monitoring core
(phosphor-fan-presence, src/monitor/fan.cpp).

The Fan operations are shallow embeddings of the member functions of
src/monitor/fan.cpp.  The TachSensor member operations (tachsensor.cpp is
not part of the provided sources) are modelled from the specification and
from the call-site comments in fan.cpp; each such definition carries a doc
comment saying so.  External collaborators (the System power/coordinator
object, the trust manager, D-Bus reads, the inventory Notify call) are
modelled as explicit parameters: the current power state and the success of
the inventory Notify call are booleans, the trust gate is a boolean plus a
predicate on sensors, D-Bus sensor reads are a partial map from sensor index
to (input, target).  Side effects on collaborators are collected in an
output list.
-/

namespace FanMonitor

/-- Fault-detection method of a sensor (types.hpp MethodMode). -/
inductive MethodMode
  | timebased
  | count
  deriving DecidableEq, Repr

/-- Mode of the per-sensor debounce timer (TimerMode in tachsensor.hpp):
a timer counting toward the functional or the nonfunctional state. -/
inductive TimerMode
  | func
  | nonfunc
  deriving DecidableEq, Repr

/-- State of one tach sensor.  Mirrors the mutable state of the C++
TachSensor: current input and target readings, range parameters, detection
method, count threshold and fault counter, functional flag, and the
debounce timer (none when not running, otherwise the mode it was started
in). -/
structure TachSensor where
  name : String
  input : Int
  target : Int
  factor : Int
  offset : Int
  method : MethodMode
  threshold : Nat
  counter : Nat
  functional : Bool
  timerMode : Option TimerMode
  deriving DecidableEq, Repr

namespace TachSensor

/-- Modelled from the spec: the sensor exposes its functional state as a
plain flag; setFunctional overwrites it ("States: Functional,
NonFunctional"). -/
def setFunctional (s : TachSensor) (b : Bool) : TachSensor :=
  { s with functional := b }

/-- Modelled from the spec: the count method maintains a bounded
increment/decrement fault counter, step 1, saturating at both bounds 0 and
threshold ("maintain a fault counter bounded to [0, threshold]",
"saturating at both bounds"). -/
def setCounter (s : TachSensor) (up : Bool) : TachSensor :=
  if up then
    if s.counter < s.threshold then { s with counter := s.counter + 1 } else s
  else
    if s.counter > 0 then { s with counter := s.counter - 1 } else s

/-- Modelled from the spec: the allowed range is
[target*(1-deviation) - offset, target*(1+deviation) + offset] scaled by
factor, with the deviation given as a percentage ("out-of-range when
input < target*(1-deviation) - offset or input > target*(1+deviation) +
offset, both scaled by factor"). -/
def getRange (s : TachSensor) (deviation : Nat) : Int × Int :=
  (s.target * s.factor * (100 - (deviation : Int)) / 100 - s.offset,
   s.target * s.factor * (100 + (deviation : Int)) / 100 + s.offset)

/-- Modelled from the spec and the call-site comment in fan.cpp
("Start nonfunctional timer if not already running",
"already-pending is a no-op"): starting is a no-op while a timer runs. -/
def startTimer (s : TachSensor) (mode : TimerMode) : TachSensor :=
  if s.timerMode.isSome then s else { s with timerMode := some mode }

/-- Modelled from the spec: stopping the debounce timer; idempotent
("Cancellation must be idempotent"). -/
def stopTimer (s : TachSensor) : TachSensor :=
  { s with timerMode := none }

/-- Modelled from the spec: whether the debounce timer is running. -/
def timerRunning (s : TachSensor) : Bool :=
  s.timerMode.isSome

/-- Modelled from the call-site comment in fan.cpp at the power-on path
("Set the counters back to zero"): resets the count-method fault counter. -/
def resetMethod (s : TachSensor) : TachSensor :=
  { s with counter := 0 }

end TachSensor

/-- Side effects on external collaborators, collected in order. -/
inductive Output
  | notify (fan : String) (functional : Bool)
  | notifyError
  | fanStatusChange (skipRulesCheck : Bool)
  | sensorError (sensor : String)
  | logMsg
  deriving DecidableEq, Repr

/-- State of one Fan (fan.hpp data members that the monitored behavior
touches).  Timers are modelled by their enabled flags; _countTimer and
_fanMissingErrorTimer being null or not is modelled by hasCountTimer and
fanMissingErrorDelay.isSome. -/
structure Fan where
  name : String
  deviation : Nat
  numSensorFailsForNonFunc : Nat
  sensors : List TachSensor
  present : Bool
  functional : Bool
  monitorReady : Bool
  hasCountTimer : Bool
  countTimerEnabled : Bool
  monitorTimerEnabled : Bool
  fanMissingErrorDelay : Option Nat
  fanMissingTimerEnabled : Bool
  deriving DecidableEq, Repr

namespace Fan

/-- Replace sensor i (the C++ code mutates the sensor through a
reference; the embedding replaces the list element). -/
def setSensor (f : Fan) (i : Nat) (s : TachSensor) : Fan :=
  { f with sensors := f.sensors.set i s }

/-- Fan::updateInventory: issues the inventory Notify call; on a method
error it logs and returns without recording the state, otherwise
_functional is set to track the inventory ("This will always track the
current state of the inventory"). -/
def updateInventory (f : Fan) (notifyOk : Bool) (functional : Bool) :
    Fan × List Output :=
  if notifyOk then
    ({ f with functional := functional }, [Output.notify f.name functional])
  else
    (f, [Output.notify f.name functional, Output.notifyError])

/-- Fan::countNonFunctionalSensors: count_if over the sensors of the
non-functional ones. -/
def countNonFunctionalSensors (f : Fan) : Nat :=
  f.sensors.countP (fun s => !s.functional)

/-- Fan::outOfRange: the input is out of range when below range.first or
above range.second of getRange(_deviation). -/
def outOfRange (f : Fan) (s : TachSensor) : Bool :=
  let range := s.getRange f.deviation
  decide (s.input < range.1) || decide (s.input > range.2)

/-- The aggregate-update tail of Fan::updateState (fan.cpp lines 395-422,
after the sensor flip): when the configured threshold is nonzero,
recompute the non-functional count once, raise the fan functional flag if
it was down and the count is below threshold, drop it if it is up and the
count reached threshold, then always report fanStatusChange. -/
def updateFunctionalAggregate (f : Fan) (notifyOk : Bool) :
    Fan × List Output :=
  if f.numSensorFailsForNonFunc ≠ 0 then
    let n := f.countNonFunctionalSensors
    let r1 :=
      if !f.functional && !(decide (n ≥ f.numSensorFailsForNonFunc)) then
        let r := f.updateInventory notifyOk true
        (r.1, Output.logMsg :: r.2)
      else (f, [])
    let r2 :=
      if r1.1.functional && decide (n ≥ r1.1.numSensorFailsForNonFunc) then
        let r := r1.1.updateInventory notifyOk false
        (r.1, Output.logMsg :: r.2)
      else (r1.1, [])
    (r2.1, r1.2 ++ r2.2 ++ [Output.fanStatusChange false])
  else (f, [Output.fanStatusChange false])

/-- Fan::updateState: returns untouched when power is off; otherwise flips
sensor i's functional flag, logs, and runs the aggregate update. -/
def updateState (f : Fan) (powerOn notifyOk : Bool) (i : Nat) :
    Fan × List Output :=
  if !powerOn then (f, [])
  else
    match f.sensors[i]? with
    | none => (f, [])
    | some s =>
      let f1 := f.setSensor i (s.setFunctional (!s.functional))
      let r := f1.updateFunctionalAggregate notifyOk
      (r.1, Output.logMsg :: r.2)

/-- Fan::process on sensor i: out-of-range while functional starts the
nonfunctional debounce timer (time-based) or increments the fault counter
and flips the sensor at threshold (count); in-range stops a running
nonfunctional timer or starts the recovery timer (time-based), or
decrements the counter and flips the sensor back at zero (count). -/
def process (f : Fan) (powerOn notifyOk : Bool) (i : Nat) :
    Fan × List Output :=
  match f.sensors[i]? with
  | none => (f, [])
  | some s =>
    if f.outOfRange s then
      if s.functional then
        match s.method with
        | MethodMode.timebased =>
          (f.setSensor i (s.startTimer TimerMode.nonfunc), [])
        | MethodMode.count =>
          let s1 := s.setCounter true
          let f1 := f.setSensor i s1
          if s1.counter ≥ s1.threshold then f1.updateState powerOn notifyOk i
          else (f1, [])
      else (f, [])
    else
      match s.method with
      | MethodMode.timebased =>
        if s.functional then
          if s.timerRunning then (f.setSensor i s.stopTimer, []) else (f, [])
        else (f.setSensor i (s.startTimer TimerMode.func), [])
      | MethodMode.count =>
        let s1 := s.setCounter false
        let f1 := f.setSensor i s1
        if !s1.functional && s1.counter == 0 then
          f1.updateState powerOn notifyOk i
        else (f1, [])

/-- Fan::tachChanged(TachSensor&): returns unless power is on and the
monitor is ready; skips the sensor when the trust gate is active and
rejects it; processes time-based sensors immediately and leaves
count-method sensors to the count timer. -/
def tachChanged (f : Fan) (powerOn trustActive notifyOk : Bool)
    (checkTrust : TachSensor → Bool) (i : Nat) : Fan × List Output :=
  if !powerOn || !f.monitorReady then (f, [])
  else
    match f.sensors[i]? with
    | none => (f, [])
    | some s =>
      if trustActive && !(checkTrust s) then (f, [])
      else if s.method = MethodMode.timebased then f.process powerOn notifyOk i
      else (f, [])

/-- The loop body of Fan::countTimerExpired over an explicit index list:
each sensor passing the trust gate is processed. -/
def countTickGo (powerOn trustActive notifyOk : Bool)
    (checkTrust : TachSensor → Bool) : List Nat → Fan → Fan × List Output
  | [], f => (f, [])
  | i :: rest, f =>
    match f.sensors[i]? with
    | none => countTickGo powerOn trustActive notifyOk checkTrust rest f
    | some s =>
      if trustActive && !(checkTrust s) then
        countTickGo powerOn trustActive notifyOk checkTrust rest f
      else
        let r := f.process powerOn notifyOk i
        let r2 := countTickGo powerOn trustActive notifyOk checkTrust rest r.1
        (r2.1, r.2 ++ r2.2)

/-- Fan::countTimerExpired: processes every sensor in order, subject only
to the trust gate. -/
def countTimerExpired (f : Fan) (powerOn trustActive notifyOk : Bool)
    (checkTrust : TachSensor → Bool) : Fan × List Output :=
  countTickGo powerOn trustActive notifyOk checkTrust
    (List.range f.sensors.length) f

/-- The per-sensor body of Fan::startMonitor: only while the fan is
present; a readable sensor gets its input and target refreshed and is fed
to tachChanged; an unreadable one (DBusServiceError) is logged, forced
nonfunctional, the fan is dropped to nonfunctional when the threshold is
met, and fanStatusChange is reported. -/
def startMonitorBody (f : Fan) (powerOn trustActive notifyOk : Bool)
    (checkTrust : TachSensor → Bool) (reading : Nat → Option (Int × Int))
    (i : Nat) : Fan × List Output :=
  if f.present then
    match f.sensors[i]? with
    | none => (f, [])
    | some s =>
      match reading i with
      | some r =>
        let f1 := f.setSensor i { s with input := r.1, target := r.2 }
        f1.tachChanged powerOn trustActive notifyOk checkTrust i
      | none =>
        let f1 := f.setSensor i (s.setFunctional false)
        let r2 :=
          if f1.numSensorFailsForNonFunc ≠ 0 then
            if f1.functional &&
                decide (f1.countNonFunctionalSensors ≥
                  f1.numSensorFailsForNonFunc) then
              f1.updateInventory notifyOk false
            else (f1, [])
          else (f1, [])
        (r2.1, Output.logMsg :: r2.2 ++ [Output.fanStatusChange false])
  else (f, [])

/-- The sensor loop of Fan::startMonitor over an explicit index list. -/
def startMonitorGo (powerOn trustActive notifyOk : Bool)
    (checkTrust : TachSensor → Bool) (reading : Nat → Option (Int × Int)) :
    List Nat → Fan → Fan × List Output
  | [], f => (f, [])
  | i :: rest, f =>
    let r := f.startMonitorBody powerOn trustActive notifyOk checkTrust
      reading i
    let r2 := startMonitorGo powerOn trustActive notifyOk checkTrust reading
      rest r.1
    (r2.1, r.2 ++ r2.2)

/-- Fan::startMonitor: sets monitor-ready, resets and enables the count
timer when one exists, then force-evaluates every sensor. -/
def startMonitor (f : Fan) (powerOn trustActive notifyOk : Bool)
    (checkTrust : TachSensor → Bool) (reading : Nat → Option (Int × Int)) :
    Fan × List Output :=
  let f0 := { f with
    monitorReady := true,
    countTimerEnabled := if f.hasCountTimer then true else f.countTimerEnabled }
  startMonitorGo powerOn trustActive notifyOk checkTrust reading
    (List.range f0.sensors.length) f0

/-- The per-sensor body of the power-on branch of Fan::powerStateChanged:
a readable sensor gets fresh readings, is restored to functional (with a
coordinator report) when it was nonfunctional, and has its count-method
counter reset; an unreadable one is only logged and left for
startMonitor. -/
def powerOnSensorBody (f : Fan) (reading : Nat → Option (Int × Int))
    (i : Nat) : Fan × List Output :=
  match f.sensors[i]? with
  | none => (f, [])
  | some s =>
    match reading i with
    | some r =>
      let s1 : TachSensor := { s with input := r.1, target := r.2 }
      let step :=
        if !s1.functional then
          (s1.setFunctional true, [Output.fanStatusChange true])
        else (s1, ([] : List Output))
      let s3 :=
        if step.1.method = MethodMode.count then step.1.resetMethod
        else step.1
      (f.setSensor i s3, step.2)
    | none => (f, [Output.logMsg])

/-- The sensor loop of the power-on branch of Fan::powerStateChanged. -/
def powerOnSensorsGo (reading : Nat → Option (Int × Int)) :
    List Nat → Fan → Fan × List Output
  | [], f => (f, [])
  | i :: rest, f =>
    let r := f.powerOnSensorBody reading i
    let r2 := powerOnSensorsGo reading rest r.1
    (r2.1, r.2 ++ r2.2)

/-- Fan::powerStateChanged.  Power-on: re-arm the monitor-start timer;
while present, refresh every readable sensor (restoring it to functional
and zeroing count-method counters) and restore the fan functional flag
when the nonfunctional count is below threshold; while missing, log and
arm the fan-missing timer.  Power-off: clear monitor-ready and disable
the monitor, fan-missing and count timers and stop every running
per-sensor timer. -/
def powerStateChanged (f : Fan) (powerStateOn notifyOk : Bool)
    (reading : Nat → Option (Int × Int)) : Fan × List Output :=
  if powerStateOn then
    let f0 := { f with monitorTimerEnabled := true }
    if f0.present then
      let r1 := powerOnSensorsGo reading (List.range f0.sensors.length) f0
      let r2 :=
        if r1.1.numSensorFailsForNonFunc ≠ 0 then
          if !r1.1.functional &&
              decide (r1.1.countNonFunctionalSensors <
                r1.1.numSensorFailsForNonFunc) then
            r1.1.updateInventory notifyOk true
          else (r1.1, [])
        else (r1.1, [])
      (r2.1, r1.2 ++ r2.2)
    else
      let f1 :=
        if f0.fanMissingErrorDelay.isSome then
          { f0 with fanMissingTimerEnabled := true }
        else f0
      (f1, [Output.logMsg])
  else
    ({ f with
        monitorReady := false,
        monitorTimerEnabled := false,
        fanMissingTimerEnabled := false,
        countTimerEnabled := false,
        sensors := f.sensors.map
          (fun s => if s.timerRunning then s.stopTimer else s) },
      [])

/-- Fan::presenceChanged (once a Present property is in the message):
record presence, log, report fanStatusChange, and arm the fan-missing
timer on absence while powered on, or disarm it on presence. -/
def presenceChanged (f : Fan) (powerOn present : Bool) : Fan × List Output :=
  let f1 := { f with present := present }
  let f2 :=
    if f1.fanMissingErrorDelay.isSome then
      if !present && powerOn then { f1 with fanMissingTimerEnabled := true }
      else if present && f1.fanMissingTimerEnabled then
        { f1 with fanMissingTimerEnabled := false }
      else f1
    else f1
  (f2, [Output.logMsg, Output.fanStatusChange false])

/-- Fan::sensorErrorTimerExpired: forwards to the coordinator only while
present and powered on. -/
def sensorErrorTimerExpired (f : Fan) (powerOn : Bool) (i : Nat) :
    Fan × List Output :=
  if f.present && powerOn then
    match f.sensors[i]? with
    | some s => (f, [Output.sensorError s.name])
    | none => (f, [])
  else (f, [])

/-- Modelled from the spec: the per-sensor debounce timer's one-shot
expiry callback invokes the fan's state-transition point Fan::updateState
on that sensor (tachsensor.cpp is not among the sources; the spec states
that a timer firing transitions the sensor and that every transition is
reported upward through the owning fan). -/
def sensorTimerExpired (f : Fan) (powerOn notifyOk : Bool) (i : Nat) :
    Fan × List Output :=
  match f.sensors[i]? with
  | none => (f, [])
  | some s =>
    let f1 := f.setSensor i s.stopTimer
    f1.updateState powerOn notifyOk i

end Fan

/-- Environment supplied by the external collaborators: the trust manager
gate, the success of inventory Notify calls, and the D-Bus readings. -/
structure Env where
  trustActive : Bool
  checkTrust : TachSensor → Bool
  notifyOk : Bool
  reading : Nat → Option (Int × Int)

/-- The chassis power state together with the fan. -/
structure SysState where
  powerOn : Bool
  fan : Fan

/-- The events the single event loop can deliver to one fan: a sensor
value change, the shared count-timer tick, the monitor-start timer expiry,
a per-sensor debounce-timer expiry, the sensor error timer, a presence
change, and a chassis power change. -/
inductive Event
  | tach (i : Nat) (v : Int)
  | countTick
  | monitorExpiry
  | sensorTimer (i : Nat)
  | sensorErrTimer (i : Nat)
  | presence (b : Bool)
  | powerChange (b : Bool)
  deriving DecidableEq, Repr

/-- When an event can be delivered: timer callbacks fire only while their
timer is enabled (sdeventplus dispatches only enabled timer sources);
D-Bus-driven events can always arrive. -/
def Event.deliverable (st : SysState) : Event → Prop
  | Event.countTick => st.fan.countTimerEnabled = true
  | Event.monitorExpiry => st.fan.monitorTimerEnabled = true
  | Event.sensorTimer i =>
    (st.fan.sensors[i]?.map TachSensor.timerRunning) = some true
  | _ => True

/-- One serialized event-loop step.  A tach event first records the new
reading in the sensor (the TachSensor property-changed handler caches the
value before calling Fan::tachChanged), the one-shot monitor timer
disables itself before its callback runs, and a power change updates the
system power state seen by the handlers. -/
def step (env : Env) (st : SysState) : Event → SysState × List Output
  | Event.tach i v =>
    let f1 :=
      match st.fan.sensors[i]? with
      | some s => st.fan.setSensor i { s with input := v }
      | none => st.fan
    let r := f1.tachChanged st.powerOn env.trustActive env.notifyOk
      env.checkTrust i
    ({ st with fan := r.1 }, r.2)
  | Event.countTick =>
    let r := st.fan.countTimerExpired st.powerOn env.trustActive env.notifyOk
      env.checkTrust
    ({ st with fan := r.1 }, r.2)
  | Event.monitorExpiry =>
    let f1 := { st.fan with monitorTimerEnabled := false }
    let r := f1.startMonitor st.powerOn env.trustActive env.notifyOk
      env.checkTrust env.reading
    ({ st with fan := r.1 }, r.2)
  | Event.sensorTimer i =>
    let r := st.fan.sensorTimerExpired st.powerOn env.notifyOk i
    ({ st with fan := r.1 }, r.2)
  | Event.sensorErrTimer i =>
    let r := st.fan.sensorErrorTimerExpired st.powerOn i
    ({ st with fan := r.1 }, r.2)
  | Event.presence b =>
    let r := st.fan.presenceChanged st.powerOn b
    ({ st with fan := r.1 }, r.2)
  | Event.powerChange b =>
    let r := st.fan.powerStateChanged b env.notifyOk env.reading
    ({ powerOn := b, fan := r.1 }, r.2)

/-- Fan::outOfRange as a function of the deviation alone (the fan only
contributes its configured deviation to the range check). -/
def sensorOutOfRange (deviation : Nat) (s : TachSensor) : Bool :=
  let range := s.getRange deviation
  decide (s.input < range.1) || decide (s.input > range.2)

/-- The effect of one Fan::process call on the processed sensor itself,
as a function of that sensor, the configured deviation and the power
state (Fan::updateState flips the sensor only while power is on). -/
def sensorTick (powerOn : Bool) (deviation : Nat) (s : TachSensor) :
    TachSensor :=
  if sensorOutOfRange deviation s then
    if s.functional then
      match s.method with
      | MethodMode.timebased => s.startTimer TimerMode.nonfunc
      | MethodMode.count =>
        let s1 := s.setCounter true
        if s1.counter ≥ s1.threshold && powerOn then
          s1.setFunctional (!s1.functional)
        else s1
    else s
  else
    match s.method with
    | MethodMode.timebased =>
      if s.functional then
        if s.timerRunning then s.stopTimer else s
      else s.startTimer TimerMode.func
    | MethodMode.count =>
      let s1 := s.setCounter false
      if (!s1.functional && s1.counter == 0) && powerOn then
        s1.setFunctional (!s1.functional)
      else s1

/-- The functional flags of all sensors, in order. -/
def Fan.sensorsFunctional (f : Fan) : List Bool :=
  f.sensors.map (fun s => s.functional)

/-- Recognizes an inventory Notify call among the outputs. -/
def isInventoryNotify : Output → Bool
  | Output.notify _ _ => true
  | _ => false

/-- The fan-level aggregation invariant: when the configured
sensor-failure threshold is nonzero, the fan functional flag is false
exactly when at least threshold-many sensors are non-functional. -/
def Fan.stateInv (f : Fan) : Prop :=
  f.numSensorFailsForNonFunc ≠ 0 →
    (f.functional = false ↔
      f.numSensorFailsForNonFunc ≤ f.countNonFunctionalSensors)

/-- The configuration-like fields of a fan that the sensor-evaluation
operations never change: name, deviation, threshold, presence, timer
existence, and the number of sensors. -/
def FrameEq (f g : Fan) : Prop :=
  g.name = f.name ∧ g.deviation = f.deviation ∧
  g.numSensorFailsForNonFunc = f.numSensorFailsForNonFunc ∧
  g.present = f.present ∧ g.hasCountTimer = f.hasCountTimer ∧
  g.fanMissingErrorDelay = f.fanMissingErrorDelay ∧
  g.sensors.length = f.sensors.length

/-- Example fixture: a time-based sensor whose input 0 is far below its
target 1000, so it is out of range at 10 percent deviation. -/
def sA : TachSensor :=
  { name := "a", input := 0, target := 1000, factor := 1, offset := 0,
    method := MethodMode.timebased, threshold := 0, counter := 0,
    functional := true, timerMode := none }

/-- Example fixture: a count-method sensor, out of range like sA. -/
def sB : TachSensor :=
  { name := "b", input := 0, target := 1000, factor := 1, offset := 0,
    method := MethodMode.count, threshold := 2, counter := 0,
    functional := true, timerMode := none }

/-- Example fixture: a missing fan holding the time-based sensor sA. -/
def fanA : Fan :=
  { name := "fan0", deviation := 10, numSensorFailsForNonFunc := 1,
    sensors := [sA], present := false, functional := true,
    monitorReady := true, hasCountTimer := false, countTimerEnabled := false,
    monitorTimerEnabled := false, fanMissingErrorDelay := none,
    fanMissingTimerEnabled := false }

/-- Example fixture: a present fan holding the count-method sensor sB. -/
def fanB : Fan :=
  { name := "fan1", deviation := 10, numSensorFailsForNonFunc := 2,
    sensors := [sB], present := true, functional := true,
    monitorReady := true, hasCountTimer := true, countTimerEnabled := true,
    monitorTimerEnabled := false, fanMissingErrorDelay := some 60,
    fanMissingTimerEnabled := false }

/-- Example fixture: an environment with an inactive trust gate,
successful notifications, and no readings published on D-Bus. -/
def envB : Env :=
  { trustActive := false, checkTrust := fun _ => true, notifyOk := true,
    reading := fun _ => none }

/-- Example fixture: power on, with fanB. -/
def stB : SysState :=
  { powerOn := true, fan := fanB }

/-! ### Auxiliary list lemmas -/

theorem list_set_self {α : Type} {l : List α} {i : Nat} {a : α}
    (h : l[i]? = some a) : l.set i a = l := by
  apply List.ext_getElem?
  intro j
  rw [List.getElem?_set]
  by_cases hij : i = j
  · subst hij
    have hi := (List.getElem?_eq_some_iff.mp h).1
    simp [hi, h]
  · simp [hij]

theorem countP_set_some {p : TachSensor → Bool} {l : List TachSensor}
    {i : Nat} {s : TachSensor} (h : l[i]? = some s) (s2 : TachSensor) :
    (l.set i s2).countP p + (if p s then 1 else 0) =
      l.countP p + (if p s2 then 1 else 0) := by
  obtain ⟨hi, hget⟩ := List.getElem?_eq_some_iff.mp h
  rw [List.countP_set p l i s2 hi, hget]
  have hone : (if p s then 1 else 0) ≤ l.countP p := by
    by_cases hp : p s
    · simp only [hp, if_true]
      have : 0 < l.countP p := by
        rw [List.countP_pos_iff]
        exact ⟨s, by rw [← hget]; exact List.getElem_mem hi, hp⟩
      omega
    · simp [hp]
  omega

/-! ### Frame and characterization lemmas for the Fan operations -/

theorem updateInventory_fst (f : Fan) (nOk b : Bool) :
    (f.updateInventory nOk b).1 =
      { f with functional := cond nOk b f.functional } := by
  cases nOk <;> rfl

theorem updateInventory_snd (f : Fan) (nOk b : Bool) :
    (f.updateInventory nOk b).2 =
      Output.notify f.name b :: (if nOk then [] else [Output.notifyError]) := by
  cases nOk <;> rfl

theorem aggregate_shape (f : Fan) (nOk : Bool) :
    (f.updateFunctionalAggregate nOk).1 =
      { f with functional := (f.updateFunctionalAggregate nOk).1.functional } := by
  obtain ⟨nm, dev, thr, ss, pr, fu, mr, hct, cte, mte, fmd, fmt⟩ := f
  unfold Fan.updateFunctionalAggregate Fan.updateInventory
    Fan.countNonFunctionalSensors
  by_cases h1 : thr = 0 <;>
    cases fu <;>
      by_cases h3 : thr ≤ ss.countP (fun s => !s.functional) <;>
        cases nOk <;>
          simp [h1, h3, ge_iff_le]

theorem aggregate_failed_fst (f : Fan) :
    (f.updateFunctionalAggregate false).1 = f := by
  obtain ⟨nm, dev, thr, ss, pr, fu, mr, hct, cte, mte, fmd, fmt⟩ := f
  unfold Fan.updateFunctionalAggregate Fan.updateInventory
    Fan.countNonFunctionalSensors
  by_cases h1 : thr = 0 <;>
    cases fu <;>
      by_cases h3 : thr ≤ ss.countP (fun s => !s.functional) <;>
        simp [h1, h3, ge_iff_le]

theorem aggregate_ok_functional (f : Fan)
    (hthr : f.numSensorFailsForNonFunc ≠ 0) :
    (f.updateFunctionalAggregate true).1.functional =
      decide (f.countNonFunctionalSensors < f.numSensorFailsForNonFunc) := by
  obtain ⟨nm, dev, thr, ss, pr, fu, mr, hct, cte, mte, fmd, fmt⟩ := f
  have hthr2 : thr ≠ 0 := hthr
  unfold Fan.updateFunctionalAggregate Fan.updateInventory
    Fan.countNonFunctionalSensors
  cases fu <;>
    by_cases h3 : thr ≤ ss.countP (fun s => !s.functional) <;>
      simp [hthr2, h3, ge_iff_le, Nat.not_le.mp, decide_eq_true_eq]

theorem aggregate_zero_functional (f : Fan)
    (hthr : f.numSensorFailsForNonFunc = 0) (nOk : Bool) :
    (f.updateFunctionalAggregate nOk).1 = f := by
  unfold Fan.updateFunctionalAggregate
  simp [hthr]

theorem aggregate_sensors (f : Fan) (nOk : Bool) :
    (f.updateFunctionalAggregate nOk).1.sensors = f.sensors := by
  rw [aggregate_shape f nOk]

theorem aggregate_thr (f : Fan) (nOk : Bool) :
    (f.updateFunctionalAggregate nOk).1.numSensorFailsForNonFunc =
      f.numSensorFailsForNonFunc := by
  rw [aggregate_shape f nOk]

theorem exists_set_id (l : List TachSensor) (i : Nat) :
    ∃ s2, l.set i s2 = l := by
  rcases h : l[i]? with _ | s
  · exact ⟨⟨"", 0, 0, 0, 0, MethodMode.timebased, 0, 0, true, none⟩,
      List.set_eq_of_length_le (List.getElem?_eq_none_iff.mp h)⟩
  · exact ⟨s, list_set_self h⟩

theorem updateState_off (f : Fan) (nOk : Bool) (i : Nat) :
    f.updateState false nOk i = (f, []) := rfl

theorem updateState_on (f : Fan) (nOk : Bool) (i : Nat) (s : TachSensor)
    (hi : f.sensors[i]? = some s) :
    f.updateState true nOk i =
      (((f.setSensor i
            (s.setFunctional (!s.functional))).updateFunctionalAggregate
          nOk).1,
        Output.logMsg ::
          ((f.setSensor i
              (s.setFunctional (!s.functional))).updateFunctionalAggregate
            nOk).2) := by
  simp [Fan.updateState, hi]

theorem updateState_shape (f : Fan) (p nOk : Bool) (i : Nat) :
    ∃ s2 b, (f.updateState p nOk i).1 =
      { f with sensors := f.sensors.set i s2, functional := b } := by
  cases p with
  | false =>
    obtain ⟨s2, hs2⟩ := exists_set_id f.sensors i
    exact ⟨s2, f.functional, by rw [updateState_off, hs2]⟩
  | true =>
    rcases hi : f.sensors[i]? with _ | s
    · obtain ⟨s2, hs2⟩ := exists_set_id f.sensors i
      refine ⟨s2, f.functional, ?_⟩
      simp [Fan.updateState, hi, hs2]
    · refine ⟨s.setFunctional (!s.functional),
        ((f.setSensor i
            (s.setFunctional (!s.functional))).updateFunctionalAggregate
          nOk).1.functional, ?_⟩
      rw [updateState_on f nOk i s hi]
      rw [aggregate_shape]
      rfl

theorem process_shape (f : Fan) (p nOk : Bool) (i : Nat) :
    ∃ s2 b, (f.process p nOk i).1 =
      { f with sensors := f.sensors.set i s2, functional := b } := by
  rcases hi : f.sensors[i]? with _ | s
  · obtain ⟨s2, hs2⟩ := exists_set_id f.sensors i
    exact ⟨s2, f.functional, by simp [Fan.process, hi, hs2]⟩
  · unfold Fan.process
    rw [hi]
    by_cases hr : f.outOfRange s <;> cases hm : s.method <;>
      by_cases hf : s.functional <;>
        simp only [hr, hm, hf, if_true, if_false, Bool.false_eq_true,
          Bool.not_true, Bool.not_false, if_pos, if_neg, Bool.true_and,
          Bool.false_and, Bool.and_true, Bool.and_false]
    · exact ⟨_, f.functional, rfl⟩
    · obtain ⟨s2, hs2⟩ := exists_set_id f.sensors i
      exact ⟨s2, f.functional, by simp [hs2]⟩
    · split
      · obtain ⟨s3, b, hsh⟩ :=
          updateState_shape (f.setSensor i (s.setCounter true)) p nOk i
        refine ⟨s3, b, ?_⟩
        rw [hsh]
        simp [Fan.setSensor, List.set_set]
      · exact ⟨_, f.functional, rfl⟩
    · obtain ⟨s2, hs2⟩ := exists_set_id f.sensors i
      exact ⟨s2, f.functional, by simp [hs2]⟩
    · split
      · exact ⟨_, f.functional, rfl⟩
      · obtain ⟨s2, hs2⟩ := exists_set_id f.sensors i
        exact ⟨s2, f.functional, by simp [hs2]⟩
    · exact ⟨_, f.functional, rfl⟩
    · split
      · obtain ⟨s3, b, hsh⟩ :=
          updateState_shape (f.setSensor i (s.setCounter false)) p nOk i
        refine ⟨s3, b, ?_⟩
        rw [hsh]
        simp [Fan.setSensor, List.set_set]
      · exact ⟨_, f.functional, rfl⟩
    · split
      · obtain ⟨s3, b, hsh⟩ :=
          updateState_shape (f.setSensor i (s.setCounter false)) p nOk i
        refine ⟨s3, b, ?_⟩
        rw [hsh]
        simp [Fan.setSensor, List.set_set]
      · exact ⟨_, f.functional, rfl⟩

theorem updateState_sensors_on (f : Fan) (nOk : Bool) (i : Nat)
    (s : TachSensor) (hi : f.sensors[i]? = some s) :
    (f.updateState true nOk i).1.sensors =
      f.sensors.set i (s.setFunctional (!s.functional)) := by
  rw [updateState_on f nOk i s hi]
  rw [aggregate_sensors]
  rfl

theorem process_getElem_self (f : Fan) (p nOk : Bool) (i : Nat)
    (s : TachSensor) (hi : f.sensors[i]? = some s) :
    (f.process p nOk i).1.sensors[i]? = some (sensorTick p f.deviation s) := by
  have hlen : i < f.sensors.length := (List.getElem?_eq_some_iff.mp hi).1
  have hset : ∀ s2 : TachSensor, (f.setSensor i s2).sensors[i]? = some s2 := by
    intro s2
    exact List.getElem?_set_self (by simpa using hlen)
  have hor : sensorOutOfRange f.deviation s = f.outOfRange s := rfl
  unfold Fan.process sensorTick
  rw [hi, hor]
  by_cases hr : f.outOfRange s <;> cases hm : s.method <;>
    by_cases hf : s.functional <;>
      simp only [hr, hm, hf, if_true, if_false, Bool.false_eq_true,
        Bool.not_true, Bool.not_false, if_pos, if_neg, Bool.true_and,
        Bool.false_and, Bool.and_true, Bool.and_false]
  · exact hset _
  · exact hi
  · by_cases hc : (s.setCounter true).counter ≥ (s.setCounter true).threshold
    · cases p with
      | false =>
        rw [if_pos hc, updateState_off]
        simpa using hset _
      | true =>
        rw [if_pos hc, if_pos (by simp [hc])]
        rw [updateState_sensors_on (f.setSensor i (s.setCounter true)) nOk i
          (s.setCounter true) (hset _)]
        simp only [Fan.setSensor, List.set_set]
        exact List.getElem?_set_self (by simpa using hlen)
    · rw [if_neg hc, if_neg (by simp [hc])]
      exact hset _
  · exact hi
  · by_cases ht : s.timerRunning
    · rw [if_pos ht, if_pos ht]
      exact hset _
    · rw [if_neg ht, if_neg ht]
      exact hi
  · exact hset _
  · by_cases hc : (!(s.setCounter false).functional &&
        (s.setCounter false).counter == 0) = true
    · cases p with
      | false =>
        rw [if_pos hc, updateState_off]
        simpa using hset _
      | true =>
        rw [if_pos hc, if_pos (by simp [hc])]
        rw [updateState_sensors_on (f.setSensor i (s.setCounter false)) nOk i
          (s.setCounter false) (hset _)]
        simp only [Fan.setSensor, List.set_set]
        exact List.getElem?_set_self (by simpa using hlen)
    · rw [if_neg hc, if_neg (by simp [hc])]
      exact hset _
  · by_cases hc : (!(s.setCounter false).functional &&
        (s.setCounter false).counter == 0) = true
    · cases p with
      | false =>
        rw [if_pos hc, updateState_off]
        simpa using hset _
      | true =>
        rw [if_pos hc, if_pos (by simp [hc])]
        rw [updateState_sensors_on (f.setSensor i (s.setCounter false)) nOk i
          (s.setCounter false) (hset _)]
        simp only [Fan.setSensor, List.set_set]
        exact List.getElem?_set_self (by simpa using hlen)
    · rw [if_neg hc, if_neg (by simp [hc])]
      exact hset _

theorem process_frame (f : Fan) (p nOk : Bool) (i : Nat) :
    (f.process p nOk i).1.deviation = f.deviation ∧
    (f.process p nOk i).1.numSensorFailsForNonFunc =
      f.numSensorFailsForNonFunc ∧
    (f.process p nOk i).1.present = f.present ∧
    (f.process p nOk i).1.monitorReady = f.monitorReady ∧
    (f.process p nOk i).1.countTimerEnabled = f.countTimerEnabled ∧
    (f.process p nOk i).1.monitorTimerEnabled = f.monitorTimerEnabled ∧
    (f.process p nOk i).1.hasCountTimer = f.hasCountTimer ∧
    (f.process p nOk i).1.fanMissingErrorDelay = f.fanMissingErrorDelay ∧
    (f.process p nOk i).1.fanMissingTimerEnabled = f.fanMissingTimerEnabled ∧
    (f.process p nOk i).1.name = f.name ∧
    (f.process p nOk i).1.sensors.length = f.sensors.length := by
  obtain ⟨s2, b, hsh⟩ := process_shape f p nOk i
  rw [hsh]
  simp

theorem process_sensors_ne (f : Fan) (p nOk : Bool) (i j : Nat)
    (hj : i ≠ j) : (f.process p nOk i).1.sensors[j]? = f.sensors[j]? := by
  obtain ⟨s2, b, hsh⟩ := process_shape f p nOk i
  rw [hsh]
  exact List.getElem?_set_ne hj

theorem countTickGo_notMem (p tA nOk : Bool) (ct : TachSensor → Bool)
    (l : List Nat) : ∀ (f : Fan) (i : Nat), i ∉ l →
    ((Fan.countTickGo p tA nOk ct l f).1.sensors)[i]? = f.sensors[i]? := by
  induction l with
  | nil => intro f i _; rfl
  | cons j rest ih =>
    intro f i hmem
    have hij : j ≠ i := fun h => hmem (h ▸ List.mem_cons_self j rest)
    have hrest : i ∉ rest := fun h => hmem (List.mem_cons_of_mem j h)
    unfold Fan.countTickGo
    rcases hj : f.sensors[j]? with _ | sj
    · exact ih f i hrest
    · dsimp only
      by_cases htr : (tA && !(ct sj)) = true
      · rw [if_pos htr]
        exact ih f i hrest
      · rw [if_neg htr]
        rw [ih (f.process p nOk j).1 i hrest]
        exact process_sensors_ne f p nOk j i hij

theorem countTickGo_deviation (p tA nOk : Bool) (ct : TachSensor → Bool)
    (l : List Nat) : ∀ f : Fan,
    (Fan.countTickGo p tA nOk ct l f).1.deviation = f.deviation := by
  induction l with
  | nil => intro f; rfl
  | cons j rest ih =>
    intro f
    unfold Fan.countTickGo
    rcases hj : f.sensors[j]? with _ | sj
    · exact ih f
    · dsimp only
      by_cases htr : (tA && !(ct sj)) = true
      · rw [if_pos htr]
        exact ih f
      · rw [if_neg htr]
        rw [ih (f.process p nOk j).1]
        exact (process_frame f p nOk j).1

theorem countTickGo_getElem (p nOk : Bool) (ct : TachSensor → Bool)
    (l : List Nat) (hnd : l.Nodup) : ∀ (f : Fan) (i : Nat) (s : TachSensor),
    i ∈ l → f.sensors[i]? = some s →
    ((Fan.countTickGo p false nOk ct l f).1.sensors)[i]? =
      some (sensorTick p f.deviation s) := by
  induction l with
  | nil => intro f i s hmem _; exact absurd hmem (List.not_mem_nil i)
  | cons j rest ih =>
    intro f i s hmem hi
    have hnd2 := List.nodup_cons.mp hnd
    unfold Fan.countTickGo
    by_cases hij : j = i
    · subst hij
      rw [hi]
      dsimp only
      rw [if_neg (by simp)]
      rw [countTickGo_notMem p false nOk ct rest (f.process p nOk j).1 j
        hnd2.1]
      exact process_getElem_self f p nOk j s hi
    · have hmem2 : i ∈ rest := by
        rcases List.mem_cons.mp hmem with h | h
        · exact absurd h.symm hij
        · exact h
      rcases hj : f.sensors[j]? with _ | sj
      · exact ih hnd2.2 f i s hmem2 hi
      · dsimp only
        rw [if_neg (by simp)]
        have hi2 : (f.process p nOk j).1.sensors[i]? = some s := by
          rw [process_sensors_ne f p nOk j i hij]
          exact hi
        have := ih hnd2.2 (f.process p nOk j).1 i s hmem2 hi2
        rw [(process_frame f p nOk j).1] at this
        exact this

theorem aggregate_notifyCount (f : Fan) :
    (f.updateFunctionalAggregate true).2.countP isInventoryNotify =
      if f.numSensorFailsForNonFunc ≠ 0 ∧
          ¬(f.functional = decide (f.countNonFunctionalSensors <
            f.numSensorFailsForNonFunc)) then 1 else 0 := by
  obtain ⟨nm, dev, thr, ss, pr, fu, mr, hct, cte, mte, fmd, fmt⟩ := f
  unfold Fan.updateFunctionalAggregate Fan.updateInventory
    Fan.countNonFunctionalSensors
  by_cases h1 : thr = 0 <;>
    cases fu <;>
      by_cases h3 : thr ≤ ss.countP (fun s => !s.functional) <;>
        simp [h1, h3, ge_iff_le, isInventoryNotify, Nat.not_le.mp,
          Nat.not_le.mpr, Nat.lt_of_le_of_lt]

theorem aggregate_twice (f : Fan) :
    (f.updateFunctionalAggregate true).1.updateFunctionalAggregate true =
      ((f.updateFunctionalAggregate true).1,
        [Output.fanStatusChange false]) := by
  by_cases hthr : f.numSensorFailsForNonFunc = 0
  · rw [aggregate_zero_functional f hthr true]
    unfold Fan.updateFunctionalAggregate
    simp [hthr]
  · have hfun := aggregate_ok_functional f hthr
    have hthr2 := aggregate_thr f true
    have hcnt : (f.updateFunctionalAggregate
        true).1.countNonFunctionalSensors = f.countNonFunctionalSensors := by
      unfold Fan.countNonFunctionalSensors
      rw [aggregate_sensors f true]
    rcases hg : f.updateFunctionalAggregate true with ⟨g, outs⟩
    have hg1 : (f.updateFunctionalAggregate true).1 = g := by rw [hg]
    rw [hg1] at hfun hthr2 hcnt
    dsimp only
    obtain ⟨gn, gd, gt, gs, gp, gf, gm, gh, gc, gmt, gfd, gft⟩ := g
    dsimp only at hfun hthr2 hcnt
    have hcntg : List.countP (fun s => !s.functional) gs =
        f.countNonFunctionalSensors := hcnt
    unfold Fan.updateFunctionalAggregate Fan.updateInventory
      Fan.countNonFunctionalSensors
    by_cases h3 : f.numSensorFailsForNonFunc ≤ f.countNonFunctionalSensors
    · have hfun2 : gf = false := by
        rw [hfun]
        simp [Nat.not_lt.mpr h3]
      subst hfun2
      simp [hthr, hthr2, hcntg, h3, ge_iff_le, Nat.not_lt.mpr h3]
    · have hfun2 : gf = true := by
        rw [hfun]
        simp [Nat.lt_of_not_le h3]
      subst hfun2
      simp [hthr, hthr2, hcntg, h3, ge_iff_le, Nat.not_le.mp h3]

theorem setCounter_functional (s : TachSensor) (u : Bool) :
    (s.setCounter u).functional = s.functional := by
  unfold TachSensor.setCounter
  split <;> split <;> rfl

theorem setCounter_threshold (s : TachSensor) (u : Bool) :
    (s.setCounter u).threshold = s.threshold := by
  unfold TachSensor.setCounter
  split <;> split <;> rfl

theorem setCounter_method (s : TachSensor) (u : Bool) :
    (s.setCounter u).method = s.method := by
  unfold TachSensor.setCounter
  split <;> split <;> rfl

theorem setCounter_true_counter (s : TachSensor)
    (hb : s.counter ≤ s.threshold) :
    (s.setCounter true).counter = min (s.counter + 1) s.threshold := by
  unfold TachSensor.setCounter
  by_cases h : s.counter < s.threshold <;> simp [h] <;> omega

theorem setCounter_false_counter (s : TachSensor) :
    (s.setCounter false).counter = s.counter - 1 := by
  unfold TachSensor.setCounter
  by_cases h : s.counter > 0 <;> simp [h] <;> omega

theorem startTimer_functional (s : TachSensor) (m : TimerMode) :
    (s.startTimer m).functional = s.functional := by
  unfold TachSensor.startTimer
  split <;> rfl

theorem startTimer_counter (s : TachSensor) (m : TimerMode) :
    (s.startTimer m).counter = s.counter := by
  unfold TachSensor.startTimer
  split <;> rfl

theorem setFunctional_counter (s : TachSensor) (b : Bool) :
    (s.setFunctional b).counter = s.counter := rfl

theorem setFunctional_threshold (s : TachSensor) (b : Bool) :
    (s.setFunctional b).threshold = s.threshold := rfl

theorem setFunctional_functional (s : TachSensor) (b : Bool) :
    (s.setFunctional b).functional = b := rfl

theorem sensorTick_count_eq (dev : Nat) (s : TachSensor)
    (hm : s.method = MethodMode.count) :
    sensorTick true dev s =
      if sensorOutOfRange dev s then
        (if s.functional then
          (if s.threshold ≤ (s.setCounter true).counter then
            (s.setCounter true).setFunctional false
           else s.setCounter true)
         else s)
      else
        (if s.functional = false ∧ (s.setCounter false).counter = 0 then
          (s.setCounter false).setFunctional true
         else s.setCounter false) := by
  unfold sensorTick
  cases hsr : sensorOutOfRange dev s <;> cases hf : s.functional <;>
    simp [hm, hsr, hf, setCounter_functional, setCounter_threshold,
      ge_iff_le, TachSensor.setFunctional, beq_iff_eq]

theorem sensorTick_count_spec (dev : Nat) (s : TachSensor)
    (hm : s.method = MethodMode.count) (hb : s.counter ≤ s.threshold) :
    ((sensorTick true dev s).counter ≤ s.threshold) ∧
    ((sensorTick true dev s).threshold = s.threshold) ∧
    (sensorOutOfRange dev s = true → s.functional = true →
      ((sensorTick true dev s).counter = min (s.counter + 1) s.threshold ∧
        ((sensorTick true dev s).functional = false ↔
          s.threshold ≤ (sensorTick true dev s).counter))) ∧
    (sensorOutOfRange dev s = true → s.functional = false →
      sensorTick true dev s = s) ∧
    (sensorOutOfRange dev s = false →
      ((sensorTick true dev s).counter = s.counter - 1 ∧
        (s.functional = true → (sensorTick true dev s).functional = true) ∧
        (s.functional = false →
          ((sensorTick true dev s).functional = true ↔
            (sensorTick true dev s).counter = 0)))) := by
  rw [sensorTick_count_eq dev s hm]
  have hcc := setCounter_true_counter s hb
  have hcf := setCounter_false_counter s
  cases hsr : sensorOutOfRange dev s <;> cases hf : s.functional <;>
    simp only [hf, hsr, Bool.false_eq_true, Bool.true_eq_false, if_true,
      if_false, ite_true, ite_false, false_and, true_and, and_true,
      reduceCtorEq, not_false_iff, forall_true_left, IsEmpty.forall_iff,
      eq_self_iff_true]
  · by_cases hz : (s.setCounter false).counter = 0
    · have h0 : s.counter - 1 = 0 := by
        rw [← hcf]
        exact hz
      simp [if_pos hz, setFunctional_counter, setFunctional_threshold,
        setFunctional_functional, setCounter_threshold, hz, h0]
    · refine ⟨?_, ?_, ?_, ?_⟩ <;>
        rw [if_neg hz]
      · rw [hcf]
        omega
      · exact setCounter_threshold s false
      · exact hcf
      · simp [setCounter_functional, hf, hz]
  · refine ⟨?_, setCounter_threshold s false, hcf, ?_⟩
    · rw [hcf]
      omega
    · simp [setCounter_functional, hf]
  · exact hb
  · by_cases hz : s.threshold ≤ (s.setCounter true).counter
    · refine ⟨?_, ?_, ?_, ?_⟩ <;>
        rw [if_pos hz]
      · rw [setFunctional_counter, hcc]
        omega
      · rw [setFunctional_threshold]
        exact setCounter_threshold s true
      · rw [setFunctional_counter]
        exact hcc
      · rw [setFunctional_functional, setFunctional_counter]
        simp [hz]
    · refine ⟨?_, ?_, ?_, ?_⟩ <;>
        rw [if_neg hz]
      · rw [hcc]
        omega
      · exact setCounter_threshold s true
      · exact hcc
      · simp [setCounter_functional, hf, hz]

/-! ### Claims -/

/-- C1, counterexample: with the fan absent (present = false) but power on
and monitor-ready, a sensor-value event delivered to Fan::tachChanged
still evaluates the sensor — it starts the nonfunctional debounce timer —
so, contrary to the claim, presence is not part of the evaluation gate and
the event does not leave the sensor state unchanged. -/
theorem c1_counterexample :
    fanA.present = false ∧ fanA.monitorReady = true ∧
    (fanA.tachChanged true false true (fun _ => true) 0).1 =
      fanA.setSensor 0 (sA.startTimer TimerMode.nonfunc) ∧
    fanA.setSensor 0 (sA.startTimer TimerMode.nonfunc) ≠ fanA := by
  decide

/-- C1, amended: sensor evaluation in Fan::tachChanged happens only when
chassis power is on and the monitor-ready flag is set; fan presence is not
checked.  When power is off or the monitor is not ready, the event
returns with the fan untouched and no outputs.  (Count-timer ticks are
delivered only while the shared count timer is enabled and perform no
further gating of their own.) -/
theorem c1_evaluation_gate (f : Fan) (powerOn trustActive notifyOk : Bool)
    (checkTrust : TachSensor → Bool) (i : Nat)
    (h : ¬(powerOn = true ∧ f.monitorReady = true)) :
    f.tachChanged powerOn trustActive notifyOk checkTrust i = (f, []) := by
  unfold Fan.tachChanged
  cases powerOn <;> cases hmr : f.monitorReady <;> simp_all

/-- Witness for the amended C1 at a concrete fan: with monitor-ready still
false, a tach event is a no-op. -/
theorem c1_evaluation_gate_witness :
    ({ fanA with monitorReady := false }).tachChanged true false true
      (fun _ => true) 0 = ({ fanA with monitorReady := false }, []) :=
  c1_evaluation_gate { fanA with monitorReady := false } true false true
    (fun _ => true) 0 (by decide)

/-- C3, counterexample: when the inventory Notify call fails, the
in-memory fan functional flag does not record the newly computed state
(here false); it keeps its previous value true, because
Fan::updateInventory returns before the assignment on a method error. -/
theorem c3_counterexample :
    fanB.functional = true ∧
    fanB.updateInventory false false =
      (fanB, [Output.notify "fan1" false, Output.notifyError]) ∧
    ¬((fanB.updateInventory false false).1.functional = false) := by
  decide

/-- C3, amended: a failed inventory notification is logged and swallowed
(the call still returns a value, with the error recorded in the outputs),
and the fan state — including the functional flag — is left entirely
unchanged, so the flag keeps tracking the last successfully notified
inventory state rather than the newly computed one; because the aggregate
update is a function of that unchanged state, the notification is
re-issued by the next aggregate update. -/
theorem c3_notify_failure (f : Fan) (b nOk : Bool) :
    f.updateInventory false b =
      (f, [Output.notify f.name b, Output.notifyError]) ∧
    (f.updateInventory true b).1.functional = b ∧
    (f.updateFunctionalAggregate false).1 = f ∧
    (f.updateFunctionalAggregate false).1.updateFunctionalAggregate nOk =
      f.updateFunctionalAggregate nOk := by
  refine ⟨rfl, rfl, aggregate_failed_fst f, ?_⟩
  rw [aggregate_failed_fst f]

/-- C4, counterexample: the count-timer tick does not evaluate count-method
sensors unconditionally: with the trust gate active and rejecting the
sensor, Fan::countTimerExpired skips it entirely — the out-of-range count
sensor keeps its counter and no output is produced. -/
theorem c4_counterexample :
    sB.method = MethodMode.count ∧ fanB.outOfRange sB = true ∧
    fanB.countTimerExpired true true true (fun _ => false) = (fanB, []) := by
  decide

/-- C4, amended: when the trust gate is inactive, every expiry of the
shared count timer evaluates every sensor exactly once against its
currently stored value (whether or not that value changed since the last
tick): each sensor's resulting state is the one-tick evaluation
sensorTick of its prior state.  The expiry callback itself is delivered
only while the shared count timer is enabled. -/
theorem c4_tick_evaluates_every_sensor (f : Fan) (p nOk : Bool)
    (ct : TachSensor → Bool) (i : Nat) (s : TachSensor)
    (hi : f.sensors[i]? = some s) :
    ((f.countTimerExpired p false nOk ct).1.sensors)[i]? =
      some (sensorTick p f.deviation s) := by
  unfold Fan.countTimerExpired
  exact countTickGo_getElem p nOk ct (List.range f.sensors.length)
    (List.nodup_range f.sensors.length) f i s
    (List.mem_range.mpr (List.getElem?_eq_some_iff.mp hi).1) hi

/-- Witness for the amended C4 at a concrete fan. -/
theorem c4_tick_evaluates_every_sensor_witness :
    ((fanB.countTimerExpired true false true
        (fun _ => true)).1.sensors)[0]? =
      some (sensorTick true fanB.deviation sB) :=
  c4_tick_evaluates_every_sensor fanB true true (fun _ => true) 0 sB rfl

/-- C5: for a time-based sensor, Fan::process starts the nonfunctional
debounce timer when the sensor is functional and out of range (a no-op if
a timer is already pending), cancels a running timer and stays functional
when it is functional and back in range, starts the functional-recovery
timer when it is non-functional and in range, and takes no action at all
when it is non-functional and out of range. -/
theorem c5_timebased_cases (f : Fan) (p nOk : Bool) (i : Nat)
    (s : TachSensor) (hi : f.sensors[i]? = some s)
    (hm : s.method = MethodMode.timebased) :
    (f.outOfRange s = true → s.functional = true →
      f.process p nOk i =
        (f.setSensor i (s.startTimer TimerMode.nonfunc), [])) ∧
    (s.timerRunning = true → s.startTimer TimerMode.nonfunc = s) ∧
    (f.outOfRange s = false → s.functional = true → s.timerRunning = true →
      (f.process p nOk i = (f.setSensor i s.stopTimer, []) ∧
        s.stopTimer.functional = true)) ∧
    (f.outOfRange s = false → s.functional = false →
      f.process p nOk i = (f.setSensor i (s.startTimer TimerMode.func), [])) ∧
    (f.outOfRange s = true → s.functional = false →
      f.process p nOk i = (f, [])) := by
  refine ⟨?_, ?_, ?_, ?_, ?_⟩
  · intro hr hf
    simp [Fan.process, hi, hr, hf, hm]
  · intro ht
    have ht2 : s.timerMode.isSome = true := ht
    unfold TachSensor.startTimer
    rw [if_pos ht2]
  · intro hr hf ht
    constructor
    · simp [Fan.process, hi, hr, hf, hm, ht]
    · rw [show s.stopTimer.functional = s.functional from rfl]
      exact hf
  · intro hr hf
    simp [Fan.process, hi, hr, hf, hm]
  · intro hr hf
    simp [Fan.process, hi, hr, hf, hm]

/-- Witness for C5 at a concrete fan: the out-of-range functional sensor
gets its nonfunctional timer started. -/
theorem c5_timebased_cases_witness :
    fanA.process true true 0 =
      (fanA.setSensor 0 (sA.startTimer TimerMode.nonfunc), []) :=
  (c5_timebased_cases fanA true true 0 sA rfl rfl).1 (by decide) rfl

/-- C6, counterexample: an out-of-range tick does not always increment the
fault counter: processing a non-functional count-method sensor whose
counter is 1 (threshold 2) while out of range leaves the counter at 1 —
the code only increments while the sensor is functional. -/
theorem c6_counterexample :
    ({ fanB with
        sensors := [{ sB with functional := false, counter := 1 }] }.outOfRange
      { sB with functional := false, counter := 1 }) = true ∧
    ({ sB with functional := false, counter := 1 }).counter = 1 ∧
    ({ sB with functional := false, counter := 1 }).threshold = 2 ∧
    ({ fanB with
        sensors := [{ sB with functional := false, counter := 1 }] }.process
      true true 0).1.sensors =
      [{ sB with functional := false, counter := 1 }] := by
  decide

/-- C6, amended: under ticks delivered with power on, a count-method
sensor's fault counter stays within [0, threshold]; an out-of-range tick
increments it (saturating at threshold) while the sensor is functional —
a non-functional sensor's counter is left unchanged by out-of-range
ticks — and reaching the threshold flips the sensor to non-functional; an
in-range tick decrements the counter toward 0, and reaching 0 while
non-functional flips the sensor back to functional. -/
theorem c6_count_counter (f : Fan) (nOk : Bool) (i : Nat) (s : TachSensor)
    (hi : f.sensors[i]? = some s) (hm : s.method = MethodMode.count)
    (hb : s.counter ≤ s.threshold) :
    ∃ s2, (f.process true nOk i).1.sensors[i]? = some s2 ∧
      s2.counter ≤ s.threshold ∧
      s2.threshold = s.threshold ∧
      (f.outOfRange s = true → s.functional = true →
        (s2.counter = min (s.counter + 1) s.threshold ∧
          (s2.functional = false ↔ s.threshold ≤ s2.counter))) ∧
      (f.outOfRange s = true → s.functional = false → s2 = s) ∧
      (f.outOfRange s = false →
        (s2.counter = s.counter - 1 ∧
          (s.functional = true → s2.functional = true) ∧
          (s.functional = false →
            (s2.functional = true ↔ s2.counter = 0)))) := by
  refine ⟨sensorTick true f.deviation s,
    process_getElem_self f true nOk i s hi, ?_⟩
  have hspec := sensorTick_count_spec f.deviation s hm hb
  have hor : sensorOutOfRange f.deviation s = f.outOfRange s := rfl
  rw [hor] at hspec
  exact hspec

/-- Witness for the amended C6 at a concrete fan. -/
theorem c6_count_counter_witness :
    ∃ s2, (fanB.process true true 0).1.sensors[0]? = some s2 ∧
      s2.counter ≤ sB.threshold ∧
      s2.threshold = sB.threshold ∧
      (fanB.outOfRange sB = true → sB.functional = true →
        (s2.counter = min (sB.counter + 1) sB.threshold ∧
          (s2.functional = false ↔ sB.threshold ≤ s2.counter))) ∧
      (fanB.outOfRange sB = true → sB.functional = false → s2 = sB) ∧
      (fanB.outOfRange sB = false →
        (s2.counter = sB.counter - 1 ∧
          (sB.functional = true → s2.functional = true) ∧
          (sB.functional = false →
            (s2.functional = true ↔ s2.counter = 0)))) :=
  c6_count_counter fanB true 0 sB rfl rfl (by decide)

/-- C7: the aggregate update (the tail of Fan::updateState) leaves the
sensors untouched; with notifications succeeding it issues exactly one
inventory notification precisely when the current state crosses the
threshold boundary (the recorded flag disagrees with the recomputed
count-below-threshold predicate), it changes the fan functional flag only
to that predicate (and not at all when the configured threshold is 0),
and running it a second time with no intervening sensor transition
changes nothing and issues no further inventory notification. -/
theorem c7_aggregate_idempotent (f : Fan) :
    ((f.updateFunctionalAggregate true).1.sensors = f.sensors) ∧
    ((f.updateFunctionalAggregate true).2.countP isInventoryNotify =
      if f.numSensorFailsForNonFunc ≠ 0 ∧
          ¬(f.functional = decide (f.countNonFunctionalSensors <
            f.numSensorFailsForNonFunc)) then 1 else 0) ∧
    ((f.updateFunctionalAggregate true).1.functional =
      if f.numSensorFailsForNonFunc = 0 then f.functional
      else decide (f.countNonFunctionalSensors <
        f.numSensorFailsForNonFunc)) ∧
    ((f.updateFunctionalAggregate true).1.updateFunctionalAggregate true =
      ((f.updateFunctionalAggregate true).1,
        [Output.fanStatusChange false])) ∧
    (((f.updateFunctionalAggregate true).1.updateFunctionalAggregate
        true).2.countP isInventoryNotify = 0) := by
  refine ⟨aggregate_sensors f true, aggregate_notifyCount f, ?_,
    aggregate_twice f, ?_⟩
  · by_cases hthr : f.numSensorFailsForNonFunc = 0
    · rw [if_pos hthr, aggregate_zero_functional f hthr true]
    · rw [if_neg hthr]
      exact aggregate_ok_functional f hthr
  · rw [aggregate_twice f]
    rfl

/-! ### FrameEq machinery and invariant-preservation lemmas -/

theorem frameEq_refl (f : Fan) : FrameEq f f :=
  ⟨rfl, rfl, rfl, rfl, rfl, rfl, rfl⟩

theorem frameEq_trans {f g h : Fan} (h1 : FrameEq f g) (h2 : FrameEq g h) :
    FrameEq f h := by
  obtain ⟨a1, a2, a3, a4, a5, a6, a7⟩ := h1
  obtain ⟨b1, b2, b3, b4, b5, b6, b7⟩ := h2
  exact ⟨b1.trans a1, b2.trans a2, b3.trans a3, b4.trans a4, b5.trans a5,
    b6.trans a6, b7.trans a7⟩

theorem frameEq_setSensor (f : Fan) (i : Nat) (s : TachSensor) :
    FrameEq f (f.setSensor i s) :=
  ⟨rfl, rfl, rfl, rfl, rfl, rfl, List.length_set f.sensors i s⟩

theorem frameEq_updateInventory (f : Fan) (nOk b : Bool) :
    FrameEq f (f.updateInventory nOk b).1 := by
  rw [updateInventory_fst]
  exact ⟨rfl, rfl, rfl, rfl, rfl, rfl, rfl⟩

theorem frameEq_aggregate (f : Fan) (nOk : Bool) :
    FrameEq f (f.updateFunctionalAggregate nOk).1 := by
  rw [aggregate_shape f nOk]
  exact ⟨rfl, rfl, rfl, rfl, rfl, rfl, rfl⟩

theorem frameEq_updateState (f : Fan) (p nOk : Bool) (i : Nat) :
    FrameEq f (f.updateState p nOk i).1 := by
  obtain ⟨s2, b, hsh⟩ := updateState_shape f p nOk i
  rw [hsh]
  exact ⟨rfl, rfl, rfl, rfl, rfl, rfl, List.length_set f.sensors i s2⟩

theorem frameEq_process (f : Fan) (p nOk : Bool) (i : Nat) :
    FrameEq f (f.process p nOk i).1 := by
  obtain ⟨s2, b, hsh⟩ := process_shape f p nOk i
  rw [hsh]
  exact ⟨rfl, rfl, rfl, rfl, rfl, rfl, List.length_set f.sensors i s2⟩

theorem frameEq_tachChanged (f : Fan) (p tA nOk : Bool)
    (ct : TachSensor → Bool) (i : Nat) :
    FrameEq f (f.tachChanged p tA nOk ct i).1 := by
  unfold Fan.tachChanged
  split
  · exact frameEq_refl f
  · rcases hi : f.sensors[i]? with _ | s
    · exact frameEq_refl f
    · dsimp only
      split
      · exact frameEq_refl f
      · split
        · exact frameEq_process f p nOk i
        · exact frameEq_refl f

theorem frameEq_countTickGo (p tA nOk : Bool) (ct : TachSensor → Bool)
    (l : List Nat) : ∀ f : Fan,
    FrameEq f (Fan.countTickGo p tA nOk ct l f).1 := by
  induction l with
  | nil => intro f; exact frameEq_refl f
  | cons j rest ih =>
    intro f
    unfold Fan.countTickGo
    rcases hj : f.sensors[j]? with _ | sj
    · exact ih f
    · dsimp only
      split
      · exact ih f
      · exact frameEq_trans (frameEq_process f p nOk j)
          (ih (f.process p nOk j).1)

theorem aggregate_count (f : Fan) (nOk : Bool) :
    (f.updateFunctionalAggregate nOk).1.countNonFunctionalSensors =
      f.countNonFunctionalSensors := by
  unfold Fan.countNonFunctionalSensors
  rw [aggregate_sensors f nOk]

theorem count_setSensor (f : Fan) (i : Nat) (s s2 : TachSensor)
    (hi : f.sensors[i]? = some s) :
    (f.setSensor i s2).countNonFunctionalSensors +
        (if !s.functional then 1 else 0) =
      f.countNonFunctionalSensors + (if !s2.functional then 1 else 0) :=
  countP_set_some hi s2

theorem count_setSensor_same (f : Fan) (i : Nat) (s s2 : TachSensor)
    (hi : f.sensors[i]? = some s) (hfun : s2.functional = s.functional) :
    (f.setSensor i s2).countNonFunctionalSensors =
      f.countNonFunctionalSensors := by
  have h := count_setSensor f i s s2 hi
  rw [hfun] at h
  omega

theorem stateInv_transport {f g : Fan}
    (hthr : g.numSensorFailsForNonFunc = f.numSensorFailsForNonFunc)
    (hfun : g.functional = f.functional)
    (hcnt : g.countNonFunctionalSensors = f.countNonFunctionalSensors)
    (h : f.stateInv) : g.stateInv := by
  intro h0
  rw [hthr] at h0
  rw [hthr, hfun, hcnt]
  exact h h0

theorem aggregate_inv (f : Fan) :
    (f.updateFunctionalAggregate true).1.stateInv := by
  intro h0
  rw [aggregate_thr] at h0
  rw [aggregate_ok_functional f h0, aggregate_thr, aggregate_count]
  simp [Nat.not_lt]

theorem updateState_inv (f : Fan) (p : Bool) (i : Nat) (h : f.stateInv) :
    (f.updateState p true i).1.stateInv := by
  cases p with
  | false => exact h
  | true =>
    rcases hi : f.sensors[i]? with _ | s
    · simpa [Fan.updateState, hi] using h
    · rw [updateState_on f true i s hi]
      exact aggregate_inv _

theorem process_inv (f : Fan) (p : Bool) (i : Nat) (h : f.stateInv) :
    (f.process p true i).1.stateInv := by
  rcases hi : f.sensors[i]? with _ | s
  · simpa [Fan.process, hi] using h
  · unfold Fan.process
    rw [hi]
    by_cases hr : f.outOfRange s <;> cases hm : s.method <;>
      by_cases hf : s.functional <;>
        simp only [hr, hm, hf, if_true, if_false, Bool.false_eq_true,
          Bool.not_true, Bool.not_false, if_pos, if_neg, Bool.true_and,
          Bool.false_and, Bool.and_true, Bool.and_false]
    · exact @stateInv_transport f _ rfl rfl
        (count_setSensor_same f i s _ hi (startTimer_functional s _)) h
    · exact h
    · split
      · exact updateState_inv _ p i (@stateInv_transport f _ rfl rfl
          (count_setSensor_same f i s _ hi (setCounter_functional s true)) h)
      · exact @stateInv_transport f _ rfl rfl
          (count_setSensor_same f i s _ hi (setCounter_functional s true)) h
    · exact h
    · split
      · exact @stateInv_transport f _ rfl rfl
          (count_setSensor_same f i s _ hi
            (show s.stopTimer.functional = s.functional from rfl)) h
      · exact h
    · exact @stateInv_transport f _ rfl rfl
        (count_setSensor_same f i s _ hi (startTimer_functional s _)) h
    · split
      · exact updateState_inv _ p i (@stateInv_transport f _ rfl rfl
          (count_setSensor_same f i s _ hi (setCounter_functional s false)) h)
      · exact @stateInv_transport f _ rfl rfl
          (count_setSensor_same f i s _ hi (setCounter_functional s false)) h
    · split
      · exact updateState_inv _ p i (@stateInv_transport f _ rfl rfl
          (count_setSensor_same f i s _ hi (setCounter_functional s false)) h)
      · exact @stateInv_transport f _ rfl rfl
          (count_setSensor_same f i s _ hi (setCounter_functional s false)) h

theorem tachChanged_inv (f : Fan) (p tA : Bool) (ct : TachSensor → Bool)
    (i : Nat) (h : f.stateInv) :
    (f.tachChanged p tA true ct i).1.stateInv := by
  unfold Fan.tachChanged
  split
  · exact h
  · rcases hi : f.sensors[i]? with _ | s
    · exact h
    · dsimp only
      split
      · exact h
      · split
        · exact process_inv f p i h
        · exact h

theorem countTickGo_inv (p tA : Bool) (ct : TachSensor → Bool)
    (l : List Nat) : ∀ f : Fan, f.stateInv →
    (Fan.countTickGo p tA true ct l f).1.stateInv := by
  induction l with
  | nil => intro f h; exact h
  | cons j rest ih =>
    intro f h
    unfold Fan.countTickGo
    rcases hj : f.sensors[j]? with _ | sj
    · exact ih f h
    · dsimp only
      split
      · exact ih f h
      · exact ih (f.process p true j).1 (process_inv f p j h)

theorem sensorTimerExpired_inv (f : Fan) (p : Bool) (i : Nat)
    (h : f.stateInv) : (f.sensorTimerExpired p true i).1.stateInv := by
  unfold Fan.sensorTimerExpired
  rcases hi : f.sensors[i]? with _ | s
  · exact h
  · dsimp only
    exact updateState_inv _ p i (@stateInv_transport f _ rfl rfl
      (count_setSensor_same f i s _ hi
        (show s.stopTimer.functional = s.functional from rfl)) h)

theorem smBody_inv (f : Fan) (p tA : Bool) (ct : TachSensor → Bool)
    (reading : Nat → Option (Int × Int)) (i : Nat) (h : f.stateInv) :
    (f.startMonitorBody p tA true ct reading i).1.stateInv := by
  unfold Fan.startMonitorBody
  split
  · rcases hi : f.sensors[i]? with _ | s
    · exact h
    · dsimp only
      rcases hrd : reading i with _ | rv
      · -- reading unavailable: the sensor is pinned nonfunctional
        dsimp only
        by_cases hthr : f.numSensorFailsForNonFunc = 0
        · rw [if_neg (by simpa using hthr)]
          intro h0
          exact absurd hthr h0
        · rw [if_pos (by simpa using hthr)]
          have hrel := count_setSensor f i s (s.setFunctional false) hi
          set f1 := f.setSensor i (s.setFunctional false) with hf1
          have hup : f.countNonFunctionalSensors ≤
              f1.countNonFunctionalSensors := by
            by_cases hsf : s.functional <;>
              simp [hsf, TachSensor.setFunctional] at hrel <;> omega
          split
          · next hcond =>
            rw [updateInventory_fst]
            intro _
            constructor
            · intro _
              show f.numSensorFailsForNonFunc ≤ f1.countNonFunctionalSensors
              have h2 := (Bool.and_eq_true _ _).mp hcond
              simpa [ge_iff_le] using h2.2
            · intro _
              rfl
          · next hcond =>
            intro _
            constructor
            · intro hc
              show f.numSensorFailsForNonFunc ≤ f1.countNonFunctionalSensors
              have hcf : f.functional = false := hc
              have := (h hthr).mp hcf
              omega
            · intro hc
              cases hft : f.functional with
              | false => exact hft
              | true =>
                exfalso
                exact hcond (by
                  simp only [Bool.and_eq_true, decide_eq_true_eq, ge_iff_le]
                  exact ⟨hft, hc⟩)
      · -- reading available: refresh and evaluate
        exact tachChanged_inv _ p tA ct i
          (@stateInv_transport f _ rfl rfl
            (count_setSensor_same f i s _ hi rfl) h)
  · exact h

theorem smGo_inv (p tA : Bool) (ct : TachSensor → Bool)
    (reading : Nat → Option (Int × Int)) (l : List Nat) : ∀ f : Fan,
    f.stateInv → (Fan.startMonitorGo p tA true ct reading l f).1.stateInv := by
  induction l with
  | nil => intro f h; exact h
  | cons j rest ih =>
    intro f h
    unfold Fan.startMonitorGo
    exact ih _ (smBody_inv f p tA ct reading j h)

theorem startMonitor_inv (f : Fan) (p tA : Bool) (ct : TachSensor → Bool)
    (reading : Nat → Option (Int × Int)) (h : f.stateInv) :
    (f.startMonitor p tA true ct reading).1.stateInv := by
  unfold Fan.startMonitor
  exact smGo_inv p tA ct reading _ _ (fun h0 => h h0)

theorem poBody_functional (f : Fan) (reading : Nat → Option (Int × Int))
    (i : Nat) : (f.powerOnSensorBody reading i).1.functional =
      f.functional := by
  unfold Fan.powerOnSensorBody
  rcases hi : f.sensors[i]? with _ | s
  · rfl
  · dsimp only
    rcases hrd : reading i with _ | rv
    · rfl
    · dsimp only
      split <;> split <;> rfl

theorem poBody_thr (f : Fan) (reading : Nat → Option (Int × Int))
    (i : Nat) : (f.powerOnSensorBody reading i).1.numSensorFailsForNonFunc =
      f.numSensorFailsForNonFunc := by
  unfold Fan.powerOnSensorBody
  rcases hi : f.sensors[i]? with _ | s
  · rfl
  · dsimp only
    rcases hrd : reading i with _ | rv
    · rfl
    · dsimp only
      split <;> split <;> rfl

theorem poBody_count_le (f : Fan) (reading : Nat → Option (Int × Int))
    (i : Nat) : (f.powerOnSensorBody reading i).1.countNonFunctionalSensors ≤
      f.countNonFunctionalSensors := by
  unfold Fan.powerOnSensorBody
  rcases hi : f.sensors[i]? with _ | s
  · exact Nat.le_refl _
  · dsimp only
    rcases hrd : reading i with _ | rv
    · exact Nat.le_refl _
    · dsimp only
      split <;> dsimp only <;> split <;> (try dsimp only)
      · have hrel := count_setSensor f i s
          (TachSensor.resetMethod (TachSensor.setFunctional
            { s with input := rv.1, target := rv.2 } true)) hi
        have h2 : (!(TachSensor.resetMethod (TachSensor.setFunctional
            { s with input := rv.1, target := rv.2 } true)).functional) =
              false := rfl
        rw [h2] at hrel
        simp only [Bool.false_eq_true, if_false, Nat.add_zero] at hrel
        omega
      · have hrel := count_setSensor f i s
          (TachSensor.setFunctional
            { s with input := rv.1, target := rv.2 } true) hi
        have h2 : (!(TachSensor.setFunctional
            { s with input := rv.1, target := rv.2 } true).functional) =
              false := rfl
        rw [h2] at hrel
        simp only [Bool.false_eq_true, if_false, Nat.add_zero] at hrel
        omega
      · have hrel := count_setSensor f i s
          (TachSensor.resetMethod { s with input := rv.1, target := rv.2 })
          hi
        have h2 : (!(TachSensor.resetMethod
            { s with input := rv.1, target := rv.2 }).functional) =
              (!s.functional) := rfl
        rw [h2] at hrel
        omega
      · have hrel := count_setSensor f i s
          { s with input := rv.1, target := rv.2 } hi
        have h2 : (!(TachSensor.functional
            { s with input := rv.1, target := rv.2 })) =
              (!s.functional) := rfl
        rw [h2] at hrel
        omega

theorem poGo_functional (reading : Nat → Option (Int × Int))
    (l : List Nat) : ∀ f : Fan,
    (Fan.powerOnSensorsGo reading l f).1.functional = f.functional := by
  induction l with
  | nil => intro f; rfl
  | cons j rest ih =>
    intro f
    unfold Fan.powerOnSensorsGo
    rw [ih _, poBody_functional]

theorem poGo_thr (reading : Nat → Option (Int × Int))
    (l : List Nat) : ∀ f : Fan,
    (Fan.powerOnSensorsGo reading l f).1.numSensorFailsForNonFunc =
      f.numSensorFailsForNonFunc := by
  induction l with
  | nil => intro f; rfl
  | cons j rest ih =>
    intro f
    unfold Fan.powerOnSensorsGo
    rw [ih _, poBody_thr]

theorem poGo_count_le (reading : Nat → Option (Int × Int))
    (l : List Nat) : ∀ f : Fan,
    (Fan.powerOnSensorsGo reading l f).1.countNonFunctionalSensors ≤
      f.countNonFunctionalSensors := by
  induction l with
  | nil => intro f; exact Nat.le_refl _
  | cons j rest ih =>
    intro f
    unfold Fan.powerOnSensorsGo
    exact Nat.le_trans (ih _) (poBody_count_le f reading j)

theorem countP_map_same (p : TachSensor → Bool) (g : TachSensor → TachSensor)
    (hg : ∀ s, p (g s) = p s) : ∀ l : List TachSensor,
    (l.map g).countP p = l.countP p := by
  intro l
  induction l with
  | nil => rfl
  | cons a rest ih =>
    simp [List.countP_cons, ih, hg a]

theorem powerStateChanged_inv (f : Fan) (b : Bool)
    (reading : Nat → Option (Int × Int)) (h : f.stateInv) :
    (f.powerStateChanged b true reading).1.stateInv := by
  unfold Fan.powerStateChanged
  cases b with
  | false =>
    rw [if_neg (show ¬(false = true) by simp)]
    intro h0
    have hcnt : ({ f with
        monitorReady := false,
        monitorTimerEnabled := false,
        fanMissingTimerEnabled := false,
        countTimerEnabled := false,
        sensors := f.sensors.map
          (fun s => if s.timerRunning then s.stopTimer else s) } :
          Fan).countNonFunctionalSensors = f.countNonFunctionalSensors := by
      unfold Fan.countNonFunctionalSensors
      exact countP_map_same _ _
        (fun s => by cases hq : s.timerRunning <;>
          simp [hq, TachSensor.stopTimer]) f.sensors
    rw [hcnt]
    exact h h0
  | true =>
    rw [if_pos rfl]
    dsimp only
    split
    · -- present: refresh sensors, then possibly restore the fan flag
      have hfun := poGo_functional reading
        (List.range f.sensors.length) { f with monitorTimerEnabled := true }
      have hthr := poGo_thr reading
        (List.range f.sensors.length) { f with monitorTimerEnabled := true }
      have hcnt := poGo_count_le reading
        (List.range f.sensors.length) { f with monitorTimerEnabled := true }
      have hfun2 : ({ f with monitorTimerEnabled := true } :
          Fan).functional = f.functional := rfl
      have hthr2 : ({ f with monitorTimerEnabled := true } :
          Fan).numSensorFailsForNonFunc = f.numSensorFailsForNonFunc := rfl
      have hcnt2 : ({ f with monitorTimerEnabled := true } :
          Fan).countNonFunctionalSensors = f.countNonFunctionalSensors := rfl
      rw [hfun2] at hfun
      rw [hthr2] at hthr
      rw [hcnt2] at hcnt
      set r1 := Fan.powerOnSensorsGo reading
        (List.range f.sensors.length) { f with monitorTimerEnabled := true }
      by_cases hz : f.numSensorFailsForNonFunc = 0
      · rw [if_neg (by simpa [hthr, hz] using hz)]
        intro h0
        rw [hthr] at h0
        exact absurd hz h0
      · rw [if_pos (by simpa [hthr] using hz)]
        split
        · next hcond =>
          rw [updateInventory_fst]
          intro _
          constructor
          · intro hc
            exact absurd hc (by simp)
          · intro hc
            exfalso
            have h2 := (Bool.and_eq_true _ _).mp hcond
            have h3 : r1.1.countNonFunctionalSensors <
                r1.1.numSensorFailsForNonFunc := by
              simpa using h2.2
            have hc2 : r1.1.numSensorFailsForNonFunc ≤
                r1.1.countNonFunctionalSensors := hc
            omega
        · next hcond =>
          intro h0
          rw [hthr] at h0
          constructor
          · intro hc
            -- fan flag still false after the loop: it was false before
            rw [hfun] at hc
            have hold := (h hz).mp hc
            -- and the restore condition did not fire, so count is at threshold
            by_cases hlt : r1.1.countNonFunctionalSensors <
                r1.1.numSensorFailsForNonFunc
            · exfalso
              exact hcond (by
                simp only [Bool.and_eq_true, Bool.not_eq_true',
                  decide_eq_true_eq]
                exact ⟨by rw [hfun]; exact hc, hlt⟩)
            · exact (show r1.1.numSensorFailsForNonFunc ≤
                r1.1.countNonFunctionalSensors by omega)
          · intro hc
            rw [hfun]
            cases hq : f.functional with
            | false => rfl
            | true =>
              exfalso
              have hold : f.countNonFunctionalSensors <
                  f.numSensorFailsForNonFunc := by
                have := (h hz).not
                rcases Nat.lt_or_ge f.countNonFunctionalSensors
                    f.numSensorFailsForNonFunc with hl | hl
                · exact hl
                · exact absurd ((h hz).mpr hl) (by simp [hq])
              have hc2 : r1.1.numSensorFailsForNonFunc ≤
                  r1.1.countNonFunctionalSensors := hc
              omega
    · -- fan missing: only the fan-missing timer is armed
      split <;>
        (intro h0; exact h h0)

theorem presenceChanged_inv (f : Fan) (p b : Bool) (h : f.stateInv) :
    (f.presenceChanged p b).1.stateInv := by
  unfold Fan.presenceChanged
  dsimp only
  split
  · split
    · intro h0; exact h h0
    · split
      · intro h0; exact h h0
      · intro h0; exact h h0
  · intro h0; exact h h0

theorem sensorErrorTimerExpired_inv (f : Fan) (p : Bool) (i : Nat)
    (h : f.stateInv) : (f.sensorErrorTimerExpired p i).1.stateInv := by
  unfold Fan.sensorErrorTimerExpired
  split
  · rcases hi : f.sensors[i]? with _ | s
    · exact h
    · exact h
  · exact h

theorem frameEq_smBody (f : Fan) (p tA nOk : Bool)
    (ct : TachSensor → Bool) (reading : Nat → Option (Int × Int))
    (i : Nat) :
    FrameEq f (f.startMonitorBody p tA nOk ct reading i).1 := by
  unfold Fan.startMonitorBody
  split
  · rcases hi : f.sensors[i]? with _ | s
    · exact frameEq_refl f
    · dsimp only
      rcases hrd : reading i with _ | rv
      · dsimp only
        split
        · split
          · exact frameEq_trans (frameEq_setSensor f i _)
              (frameEq_updateInventory _ nOk false)
          · exact frameEq_setSensor f i _
        · exact frameEq_setSensor f i _
      · exact frameEq_trans (frameEq_setSensor f i _)
          (frameEq_tachChanged _ p tA nOk ct i)
  · exact frameEq_refl f

theorem frameEq_smGo (p tA nOk : Bool) (ct : TachSensor → Bool)
    (reading : Nat → Option (Int × Int)) (l : List Nat) : ∀ f : Fan,
    FrameEq f (Fan.startMonitorGo p tA nOk ct reading l f).1 := by
  induction l with
  | nil => intro f; exact frameEq_refl f
  | cons j rest ih =>
    intro f
    unfold Fan.startMonitorGo
    exact frameEq_trans (frameEq_smBody f p tA nOk ct reading j) (ih _)

theorem frameEq_poBody (f : Fan) (reading : Nat → Option (Int × Int))
    (i : Nat) : FrameEq f (f.powerOnSensorBody reading i).1 := by
  unfold Fan.powerOnSensorBody
  rcases hi : f.sensors[i]? with _ | s
  · exact frameEq_refl f
  · dsimp only
    rcases hrd : reading i with _ | rv
    · exact frameEq_refl f
    · exact frameEq_setSensor f i _

theorem frameEq_poGo (reading : Nat → Option (Int × Int))
    (l : List Nat) : ∀ f : Fan,
    FrameEq f (Fan.powerOnSensorsGo reading l f).1 := by
  induction l with
  | nil => intro f; exact frameEq_refl f
  | cons j rest ih =>
    intro f
    unfold Fan.powerOnSensorsGo
    exact frameEq_trans (frameEq_poBody f reading j) (ih _)

theorem updateState_functional_zero (f : Fan) (p nOk : Bool) (i : Nat)
    (hthr : f.numSensorFailsForNonFunc = 0) :
    (f.updateState p nOk i).1.functional = f.functional := by
  cases p with
  | false => rfl
  | true =>
    rcases hi : f.sensors[i]? with _ | s
    · simp [Fan.updateState, hi]
    · rw [updateState_on f nOk i s hi]
      dsimp only
      rw [aggregate_zero_functional _
        (show (f.setSensor i
          (s.setFunctional (!s.functional))).numSensorFailsForNonFunc = 0
          from hthr) nOk]
      rfl

theorem process_functional_zero (f : Fan) (p nOk : Bool) (i : Nat)
    (hthr : f.numSensorFailsForNonFunc = 0) :
    (f.process p nOk i).1.functional = f.functional := by
  rcases hi : f.sensors[i]? with _ | s
  · simp [Fan.process, hi]
  · unfold Fan.process
    rw [hi]
    by_cases hr : f.outOfRange s <;> cases hm : s.method <;>
      by_cases hf : s.functional <;>
        simp only [hr, hm, hf, if_true, if_false, Bool.false_eq_true,
          Bool.not_true, Bool.not_false, if_pos, if_neg, Bool.true_and,
          Bool.false_and, Bool.and_true, Bool.and_false]
    · rfl
    · split
      · exact updateState_functional_zero _ p nOk i hthr
      · rfl
    · split
      · rfl
      · rfl
    · rfl
    · split
      · exact updateState_functional_zero _ p nOk i hthr
      · rfl
    · split
      · exact updateState_functional_zero _ p nOk i hthr
      · rfl

theorem tachChanged_functional_zero (f : Fan) (p tA nOk : Bool)
    (ct : TachSensor → Bool) (i : Nat)
    (hthr : f.numSensorFailsForNonFunc = 0) :
    (f.tachChanged p tA nOk ct i).1.functional = f.functional := by
  unfold Fan.tachChanged
  split
  · rfl
  · rcases hi : f.sensors[i]? with _ | s
    · rfl
    · dsimp only
      split
      · rfl
      · split
        · exact process_functional_zero f p nOk i hthr
        · rfl

theorem countTickGo_functional_zero (p tA nOk : Bool)
    (ct : TachSensor → Bool) (l : List Nat) : ∀ f : Fan,
    f.numSensorFailsForNonFunc = 0 →
    (Fan.countTickGo p tA nOk ct l f).1.functional = f.functional := by
  induction l with
  | nil => intro f _; rfl
  | cons j rest ih =>
    intro f hthr
    unfold Fan.countTickGo
    rcases hj : f.sensors[j]? with _ | sj
    · exact ih f hthr
    · dsimp only
      split
      · exact ih f hthr
      · rw [ih (f.process p nOk j).1
          (((frameEq_process f p nOk j).2.2.1).trans hthr)]
        exact process_functional_zero f p nOk j hthr

theorem smBody_functional_zero (f : Fan) (p tA nOk : Bool)
    (ct : TachSensor → Bool) (reading : Nat → Option (Int × Int)) (i : Nat)
    (hthr : f.numSensorFailsForNonFunc = 0) :
    (f.startMonitorBody p tA nOk ct reading i).1.functional =
      f.functional := by
  unfold Fan.startMonitorBody
  split
  · rcases hi : f.sensors[i]? with _ | s
    · rfl
    · dsimp only
      rcases hrd : reading i with _ | rv
      · dsimp only
        rw [if_neg (by simpa using
          (show (f.setSensor i
            (s.setFunctional false)).numSensorFailsForNonFunc = 0
            from hthr))]
        rfl
      · exact tachChanged_functional_zero _ p tA nOk ct i hthr
  · rfl

theorem smGo_functional_zero (p tA nOk : Bool) (ct : TachSensor → Bool)
    (reading : Nat → Option (Int × Int)) (l : List Nat) : ∀ f : Fan,
    f.numSensorFailsForNonFunc = 0 →
    (Fan.startMonitorGo p tA nOk ct reading l f).1.functional =
      f.functional := by
  induction l with
  | nil => intro f _; rfl
  | cons j rest ih =>
    intro f hthr
    unfold Fan.startMonitorGo
    rw [ih _ (((frameEq_smBody f p tA nOk ct reading j).2.2.1).trans hthr)]
    exact smBody_functional_zero f p tA nOk ct reading j hthr

theorem presenceChanged_functional (f : Fan) (p b : Bool) :
    (f.presenceChanged p b).1.functional = f.functional := by
  unfold Fan.presenceChanged
  dsimp only
  split
  · split
    · rfl
    · split
      · rfl
      · rfl
  · rfl

theorem sensorErrorTimerExpired_functional (f : Fan) (p : Bool) (i : Nat) :
    (f.sensorErrorTimerExpired p i).1.functional = f.functional := by
  unfold Fan.sensorErrorTimerExpired
  split
  · rcases hi : f.sensors[i]? with _ | s
    · rfl
    · rfl
  · rfl

theorem sensorTimerExpired_functional_zero (f : Fan) (p nOk : Bool)
    (i : Nat) (hthr : f.numSensorFailsForNonFunc = 0) :
    (f.sensorTimerExpired p nOk i).1.functional = f.functional := by
  unfold Fan.sensorTimerExpired
  rcases hi : f.sensors[i]? with _ | s
  · rfl
  · dsimp only
    exact updateState_functional_zero _ p nOk i hthr

theorem powerStateChanged_functional_zero (f : Fan) (b nOk : Bool)
    (reading : Nat → Option (Int × Int))
    (hthr : f.numSensorFailsForNonFunc = 0) :
    (f.powerStateChanged b nOk reading).1.functional = f.functional := by
  unfold Fan.powerStateChanged
  cases b with
  | false => rw [if_neg (show ¬(false = true) by simp)]
  | true =>
    rw [if_pos rfl]
    dsimp only
    split
    · rw [if_neg (by
        simpa using (poGo_thr reading (List.range f.sensors.length)
          { f with monitorTimerEnabled := true }).trans hthr)]
      exact poGo_functional reading (List.range f.sensors.length) _
    · split
      · rfl
      · rfl

/-- C2: provided inventory notifications succeed, every event processed by
the event loop preserves the aggregation invariant — with a nonzero
configured threshold the fan functional flag is false exactly when at
least threshold-many sensors are non-functional — and with a zero
threshold no event ever changes the fan-level functional flag, which
therefore tracks only what presence handling does elsewhere. -/
theorem c2_threshold_invariant (env : Env) (st : SysState) (e : Event)
    (hok : env.notifyOk = true) (hinv : st.fan.stateInv) :
    (step env st e).1.fan.stateInv ∧
    (st.fan.numSensorFailsForNonFunc = 0 →
      (step env st e).1.fan.functional = st.fan.functional) := by
  cases e with
  | tach i v =>
    refine ⟨?_, fun hthr => ?_⟩ <;>
      (unfold step; dsimp only; rcases hi : st.fan.sensors[i]? with _ | s <;>
        dsimp only)
    · rw [hok]
      exact tachChanged_inv _ _ env.trustActive env.checkTrust i hinv
    · rw [hok]
      exact tachChanged_inv _ _ env.trustActive env.checkTrust i
        (@stateInv_transport st.fan _ rfl rfl
          (count_setSensor_same st.fan i s _ hi rfl) hinv)
    · exact tachChanged_functional_zero _ _ _ _ _ i hthr
    · exact tachChanged_functional_zero _ _ _ _ _ i
        (show (st.fan.setSensor i
          { s with input := v }).numSensorFailsForNonFunc = 0 from hthr)
  | countTick =>
    refine ⟨?_, fun hthr => ?_⟩ <;>
      (unfold step Fan.countTimerExpired; dsimp only)
    · rw [hok]
      exact countTickGo_inv _ _ _ _ _ hinv
    · exact countTickGo_functional_zero _ _ _ _ _ _ hthr
  | monitorExpiry =>
    refine ⟨?_, fun hthr => ?_⟩ <;>
      (unfold step; dsimp only)
    · rw [hok]
      exact startMonitor_inv _ _ env.trustActive env.checkTrust env.reading
        hinv
    · unfold Fan.startMonitor
      dsimp only
      exact smGo_functional_zero _ _ _ _ _ _ _ hthr
  | sensorTimer i =>
    refine ⟨?_, fun hthr => ?_⟩ <;>
      (unfold step; dsimp only)
    · rw [hok]
      exact sensorTimerExpired_inv _ _ i hinv
    · exact sensorTimerExpired_functional_zero _ _ _ i hthr
  | sensorErrTimer i =>
    refine ⟨?_, fun hthr => ?_⟩ <;>
      (unfold step; dsimp only)
    · exact sensorErrorTimerExpired_inv _ _ i hinv
    · exact sensorErrorTimerExpired_functional _ _ i
  | presence b =>
    refine ⟨?_, fun hthr => ?_⟩ <;>
      (unfold step; dsimp only)
    · exact presenceChanged_inv _ _ b hinv
    · exact presenceChanged_functional _ _ b
  | powerChange b =>
    refine ⟨?_, fun hthr => ?_⟩ <;>
      (unfold step; dsimp only)
    · rw [hok]
      exact powerStateChanged_inv _ b env.reading hinv
    · exact powerStateChanged_functional_zero _ b _ _ hthr

/-- Witness for C2 at a concrete state: one count-timer tick on fanB. -/
theorem c2_threshold_invariant_witness :
    (step envB stB Event.countTick).1.fan.stateInv ∧
    (stB.fan.numSensorFailsForNonFunc = 0 →
      (step envB stB Event.countTick).1.fan.functional =
        stB.fan.functional) :=
  c2_threshold_invariant envB stB Event.countTick rfl
    (by unfold Fan.stateInv; decide)

theorem sensorTick_false_functional (dev : Nat) (s : TachSensor) :
    (sensorTick false dev s).functional = s.functional := by
  unfold sensorTick
  cases hsr : sensorOutOfRange dev s <;> cases hf : s.functional <;>
    cases hm : s.method <;>
      simp only [hsr, hf, hm, Bool.false_eq_true, Bool.true_eq_false,
        if_true, if_false, ite_true, ite_false, Bool.and_false,
        startTimer_functional, setCounter_functional,
        TachSensor.stopTimer]
  all_goals
    first
    | rfl
    | exact hf
    | exact (setCounter_functional s false).trans hf
    | exact (setCounter_functional s true).trans hf
    | exact setCounter_functional s false
    | exact setCounter_functional s true
    | (split <;>
        first
        | rfl
        | exact hf
        | simp [TachSensor.stopTimer, hf])

theorem sensorsFunctional_setSensor_same (f : Fan) (i : Nat)
    (s s2 : TachSensor) (hi : f.sensors[i]? = some s)
    (hfun : s2.functional = s.functional) :
    (f.setSensor i s2).sensorsFunctional = f.sensorsFunctional := by
  unfold Fan.sensorsFunctional Fan.setSensor
  rw [List.map_set, hfun]
  exact list_set_self (by rw [List.getElem?_map, hi]; rfl)

theorem process_sensorsFunctional_off (f : Fan) (nOk : Bool) (i : Nat) :
    (f.process false nOk i).1.sensorsFunctional = f.sensorsFunctional := by
  rcases hi : f.sensors[i]? with _ | s
  · simp [Fan.process, hi]
  · have hgi := process_getElem_self f false nOk i s hi
    obtain ⟨s2, b, hsh⟩ := process_shape f false nOk i
    unfold Fan.sensorsFunctional
    apply List.ext_getElem?
    intro j
    rw [List.getElem?_map, List.getElem?_map]
    by_cases hij : j = i
    · subst hij
      rw [hgi, hi]
      simp [sensorTick_false_functional]
    · rw [process_sensors_ne f false nOk i j (fun h => hij h.symm)]

theorem process_functional_off (f : Fan) (nOk : Bool) (i : Nat) :
    (f.process false nOk i).1.functional = f.functional := by
  rcases hi : f.sensors[i]? with _ | s
  · simp [Fan.process, hi]
  · unfold Fan.process
    rw [hi]
    by_cases hr : f.outOfRange s <;> cases hm : s.method <;>
      by_cases hf : s.functional <;>
        simp only [hr, hm, hf, if_true, if_false, Bool.false_eq_true,
          Bool.not_true, Bool.not_false, if_pos, if_neg, Bool.true_and,
          Bool.false_and, Bool.and_true, Bool.and_false]
    · rfl
    · split
      · rw [updateState_off]
        rfl
      · rfl
    · split
      · rfl
      · rfl
    · rfl
    · split
      · rw [updateState_off]
        rfl
      · rfl
    · split
      · rw [updateState_off]
        rfl
      · rfl

theorem tachChanged_off (f : Fan) (tA nOk : Bool)
    (ct : TachSensor → Bool) (i : Nat) :
    f.tachChanged false tA nOk ct i = (f, []) := rfl

theorem countTickGo_off (tA nOk : Bool) (ct : TachSensor → Bool)
    (l : List Nat) : ∀ f : Fan,
    (Fan.countTickGo false tA nOk ct l f).1.sensorsFunctional =
        f.sensorsFunctional ∧
      (Fan.countTickGo false tA nOk ct l f).1.functional = f.functional := by
  induction l with
  | nil => intro f; exact ⟨rfl, rfl⟩
  | cons j rest ih =>
    intro f
    unfold Fan.countTickGo
    rcases hj : f.sensors[j]? with _ | sj
    · exact ih f
    · dsimp only
      split
      · exact ih f
      · obtain ⟨ih1, ih2⟩ := ih (f.process false nOk j).1
        exact ⟨ih1.trans (process_sensorsFunctional_off f nOk j),
          ih2.trans (process_functional_off f nOk j)⟩

theorem presenceChanged_sensors (f : Fan) (p b : Bool) :
    (f.presenceChanged p b).1.sensors = f.sensors := by
  unfold Fan.presenceChanged
  dsimp only
  split
  · split
    · rfl
    · split
      · rfl
      · rfl
  · rfl

theorem map_same_of_pointwise {β : Type} (g : TachSensor → TachSensor)
    (pr : TachSensor → β) (hg : ∀ s, pr (g s) = pr s) :
    ∀ l : List TachSensor, (l.map g).map pr = l.map pr := by
  intro l
  induction l with
  | nil => rfl
  | cons a rest ih => simp [ih, hg a]

/-- C8: (i) the transition point Fan::updateState returns without acting
while chassis power is off; (ii) the power-off handler clears
monitor-ready, disables the monitor-start, fan-missing and shared count
timers, stops every running per-sensor debounce timer, and freezes — does
not reset — every sensor's functional flag and counter and the fan-level
functional flag, producing no outputs; (iii) after the handler has run
(power off, monitor timer disabled), no deliverable event other than a
power-on changes any sensor functional flag or the fan functional flag. -/
theorem c8_power_off_freeze :
    (∀ (f : Fan) (nOk : Bool) (i : Nat),
      f.updateState false nOk i = (f, [])) ∧
    (∀ (f : Fan) (nOk : Bool) (reading : Nat → Option (Int × Int)),
      ((f.powerStateChanged false nOk reading).1.monitorReady = false ∧
       (f.powerStateChanged false nOk reading).1.monitorTimerEnabled =
         false ∧
       (f.powerStateChanged false nOk reading).1.fanMissingTimerEnabled =
         false ∧
       (f.powerStateChanged false nOk reading).1.countTimerEnabled = false ∧
       (∀ s ∈ (f.powerStateChanged false nOk reading).1.sensors,
         s.timerRunning = false) ∧
       (f.powerStateChanged false nOk reading).1.sensorsFunctional =
         f.sensorsFunctional ∧
       (f.powerStateChanged false nOk reading).1.functional =
         f.functional ∧
       (f.powerStateChanged false nOk reading).1.sensors.map
         (fun s => s.counter) = f.sensors.map (fun s => s.counter) ∧
       (f.powerStateChanged false nOk reading).2 = [])) ∧
    (∀ (env : Env) (st : SysState) (e : Event),
      st.powerOn = false → st.fan.monitorTimerEnabled = false →
      e.deliverable st → e ≠ Event.powerChange true →
      ((step env st e).1.fan.sensorsFunctional =
          st.fan.sensorsFunctional ∧
        (step env st e).1.fan.functional = st.fan.functional)) := by
  refine ⟨fun f nOk i => updateState_off f nOk i, ?_, ?_⟩
  · intro f nOk reading
    unfold Fan.powerStateChanged
    rw [if_neg (show ¬(false = true) by simp)]
    refine ⟨rfl, rfl, rfl, rfl, ?_, ?_, rfl, ?_, rfl⟩
    · intro s hs
      rcases List.mem_map.mp hs with ⟨s0, _, hs0⟩
      subst hs0
      cases hq : s0.timerRunning with
      | false =>
        rw [if_neg (show ¬(false = true) by simp)]
        exact hq
      | true =>
        rw [if_pos rfl]
        rfl
    · exact map_same_of_pointwise _ _
        (fun s => by cases hq : s.timerRunning <;>
          simp [hq, TachSensor.stopTimer]) f.sensors
    · exact map_same_of_pointwise _ _
        (fun s => by cases hq : s.timerRunning <;>
          simp [hq, TachSensor.stopTimer]) f.sensors
  · intro env st e hp hmt hdel hne
    cases e with
    | tach i v =>
      unfold step
      dsimp only
      rw [hp]
      rcases hi : st.fan.sensors[i]? with _ | s
      · rw [tachChanged_off]
        exact ⟨rfl, rfl⟩
      · dsimp only
        rw [tachChanged_off]
        exact ⟨sensorsFunctional_setSensor_same st.fan i s _ hi rfl, rfl⟩
    | countTick =>
      unfold step Fan.countTimerExpired
      dsimp only
      rw [hp]
      exact countTickGo_off env.trustActive env.notifyOk env.checkTrust
        (List.range st.fan.sensors.length) st.fan
    | monitorExpiry =>
      exact absurd hdel (by simp [Event.deliverable, hmt])
    | sensorTimer i =>
      unfold step Fan.sensorTimerExpired
      dsimp only
      rw [hp]
      rcases hi : st.fan.sensors[i]? with _ | s
      · exact ⟨rfl, rfl⟩
      · dsimp only
        rw [updateState_off]
        exact ⟨sensorsFunctional_setSensor_same st.fan i s _ hi rfl, rfl⟩
    | sensorErrTimer i =>
      unfold step Fan.sensorErrorTimerExpired
      dsimp only
      split
      · rcases hi : st.fan.sensors[i]? with _ | s
        · exact ⟨rfl, rfl⟩
        · exact ⟨rfl, rfl⟩
      · exact ⟨rfl, rfl⟩
    | presence b =>
      unfold step
      dsimp only
      constructor
      · unfold Fan.sensorsFunctional
        rw [presenceChanged_sensors]
      · exact presenceChanged_functional st.fan st.powerOn b
    | powerChange b =>
      cases b with
      | true => exact absurd rfl hne
      | false =>
        unfold step Fan.powerStateChanged
        dsimp only
        rw [if_neg (show ¬(false = true) by simp)]
        constructor
        · exact map_same_of_pointwise _ _
            (fun s => by cases hq : s.timerRunning <;>
              simp [hq, TachSensor.stopTimer]) st.fan.sensors
        · rfl

/-- Witness for C8: a tach event delivered to a powered-off system leaves
the functional states frozen. -/
theorem c8_power_off_freeze_witness :
    (fanB.updateState false true 0 = (fanB, [])) ∧
    ((fanB.powerStateChanged false true (fun _ => none)).1.functional =
      fanB.functional) ∧
    ((step envB { powerOn := false, fan := fanA } (Event.tach 0 5)).1.fan.sensorsFunctional =
      ({ powerOn := false, fan := fanA } : SysState).fan.sensorsFunctional) :=
  ⟨c8_power_off_freeze.1 fanB true 0,
    (c8_power_off_freeze.2.1 fanB true (fun _ => none)).2.2.2.2.2.2.1,
    (c8_power_off_freeze.2.2 envB { powerOn := false, fan := fanA }
      (Event.tach 0 5) rfl rfl trivial (by simp)).1⟩

theorem count_eq_of_sensorsFunctional {f g : Fan}
    (h : g.sensorsFunctional = f.sensorsFunctional) :
    g.countNonFunctionalSensors = f.countNonFunctionalSensors := by
  have h1 : ∀ k : Fan, k.countNonFunctionalSensors =
      k.sensorsFunctional.countP (fun b => !b) := by
    intro k
    unfold Fan.countNonFunctionalSensors Fan.sensorsFunctional
    rw [List.countP_map]
    rfl
  rw [h1 f, h1 g, h]

theorem process_tb_noFlag (f : Fan) (p nOk : Bool) (i : Nat)
    (s : TachSensor) (hi : f.sensors[i]? = some s)
    (hm : s.method = MethodMode.timebased) :
    (f.process p nOk i).1.sensorsFunctional = f.sensorsFunctional ∧
      (f.process p nOk i).1.functional = f.functional := by
  unfold Fan.process
  rw [hi]
  dsimp only
  by_cases hr : f.outOfRange s
  · rw [if_pos hr]
    by_cases hf : s.functional
    · rw [if_pos hf, hm]
      exact ⟨sensorsFunctional_setSensor_same f i s _ hi
        (startTimer_functional s _), rfl⟩
    · rw [if_neg hf]
      exact ⟨rfl, rfl⟩
  · rw [if_neg hr, hm]
    by_cases hf : s.functional
    · rw [if_pos hf]
      by_cases ht : s.timerRunning
      · rw [if_pos ht]
        exact ⟨sensorsFunctional_setSensor_same f i s _ hi rfl, rfl⟩
      · rw [if_neg ht]
        exact ⟨rfl, rfl⟩
    · rw [if_neg hf]
      exact ⟨sensorsFunctional_setSensor_same f i s _ hi
        (startTimer_functional s _), rfl⟩

theorem tachChanged_noFlag (f : Fan) (p tA nOk : Bool)
    (ct : TachSensor → Bool) (i : Nat) :
    (f.tachChanged p tA nOk ct i).1.sensorsFunctional =
        f.sensorsFunctional ∧
      (f.tachChanged p tA nOk ct i).1.functional = f.functional := by
  unfold Fan.tachChanged
  split
  · exact ⟨rfl, rfl⟩
  · rcases hi : f.sensors[i]? with _ | s
    · exact ⟨rfl, rfl⟩
    · dsimp only
      split
      · exact ⟨rfl, rfl⟩
      · split
        · next hm => exact process_tb_noFlag f p nOk i s hi hm
        · exact ⟨rfl, rfl⟩

theorem tachChanged_sensors_ne (f : Fan) (p tA nOk : Bool)
    (ct : TachSensor → Bool) (i j : Nat) (hj : i ≠ j) :
    (f.tachChanged p tA nOk ct i).1.sensors[j]? = f.sensors[j]? := by
  unfold Fan.tachChanged
  split
  · rfl
  · rcases hi : f.sensors[i]? with _ | s
    · rfl
    · dsimp only
      split
      · rfl
      · split
        · exact process_sensors_ne f p nOk i j hj
        · rfl

theorem smBody_sensors_ne (f : Fan) (p tA nOk : Bool)
    (ct : TachSensor → Bool) (reading : Nat → Option (Int × Int))
    (i j : Nat) (hj : i ≠ j) :
    (f.startMonitorBody p tA nOk ct reading i).1.sensors[j]? =
      f.sensors[j]? := by
  unfold Fan.startMonitorBody
  split
  · rcases hi : f.sensors[i]? with _ | s
    · rfl
    · dsimp only
      rcases hrd : reading i with _ | rv
      · dsimp only
        have hbase : (f.setSensor i
            (s.setFunctional false)).sensors[j]? = f.sensors[j]? := by
          unfold Fan.setSensor
          exact List.getElem?_set_ne hj
        split
        · split
          · rw [updateInventory_fst]
            exact hbase
          · exact hbase
        · exact hbase
      · rw [tachChanged_sensors_ne _ p tA nOk ct i j hj]
        unfold Fan.setSensor
        exact List.getElem?_set_ne hj
  · rfl

theorem smGo_sensors_notMem (p tA nOk : Bool) (ct : TachSensor → Bool)
    (reading : Nat → Option (Int × Int)) (l : List Nat) :
    ∀ (f : Fan) (i : Nat), i ∉ l →
    (Fan.startMonitorGo p tA nOk ct reading l f).1.sensors[i]? =
      f.sensors[i]? := by
  induction l with
  | nil => intro f i _; rfl
  | cons j rest ih =>
    intro f i hmem
    have hij : j ≠ i := fun h => hmem (h ▸ List.mem_cons_self j rest)
    have hrest : i ∉ rest := fun h => hmem (List.mem_cons_of_mem j h)
    unfold Fan.startMonitorGo
    rw [ih _ i hrest]
    exact smBody_sensors_ne f p tA nOk ct reading j i hij

theorem smBody_unreadable (f : Fan) (p tA : Bool) (ct : TachSensor → Bool)
    (reading : Nat → Option (Int × Int)) (i : Nat) (s : TachSensor)
    (hpres : f.present = true) (hi : f.sensors[i]? = some s)
    (hrd : reading i = none) :
    ((f.startMonitorBody p tA true ct reading i).1.sensors[i]? =
      some (s.setFunctional false)) ∧
    (Output.fanStatusChange false ∈
      (f.startMonitorBody p tA true ct reading i).2) ∧
    ((f.startMonitorBody p tA true ct reading i).1.numSensorFailsForNonFunc ≠
        0 →
      (f.startMonitorBody p tA true ct reading i).1.functional = true →
      (f.startMonitorBody p tA true ct reading
          i).1.countNonFunctionalSensors <
        (f.startMonitorBody p tA true ct reading
          i).1.numSensorFailsForNonFunc) := by
  have hlen : i < f.sensors.length := (List.getElem?_eq_some_iff.mp hi).1
  have hset : (f.setSensor i
      (s.setFunctional false)).sensors[i]? = some (s.setFunctional false) :=
    List.getElem?_set_self (by simpa using hlen)
  unfold Fan.startMonitorBody
  rw [if_pos hpres, hi]
  dsimp only
  rw [hrd]
  dsimp only
  by_cases hthr : f.numSensorFailsForNonFunc = 0
  · rw [if_neg (by simpa using
      (show (f.setSensor i
        (s.setFunctional false)).numSensorFailsForNonFunc = 0 from hthr))]
    refine ⟨hset, by simp, ?_⟩
    intro h0
    exact absurd hthr h0
  · rw [if_pos (by simpa using
      (show ((f.setSensor i
          (s.setFunctional false)).numSensorFailsForNonFunc = 0 → False)
        from fun hh => hthr hh))]
    split
    · next hcond =>
      rw [updateInventory_fst]
      refine ⟨hset, ?_, ?_⟩
      · rw [updateInventory_snd]
        simp
      · intro _ h1
        exact absurd h1 (by simp)
    · next hcond =>
      refine ⟨hset, by simp, ?_⟩
      intro h0 h1
      have h1f : (f.setSensor i (s.setFunctional false)).functional =
          true := h1
      show (f.setSensor i (s.setFunctional false)).countNonFunctionalSensors
        < f.numSensorFailsForNonFunc
      by_cases hge : f.numSensorFailsForNonFunc ≤
          (f.setSensor i (s.setFunctional false)).countNonFunctionalSensors
      · exact absurd (by
          simp only [Bool.and_eq_true, decide_eq_true_eq, ge_iff_le]
          exact ⟨h1f, hge⟩) hcond
      · omega

theorem smBody_J_pres (f : Fan) (p tA : Bool) (ct : TachSensor → Bool)
    (reading : Nat → Option (Int × Int)) (j : Nat)
    (hJ : f.numSensorFailsForNonFunc ≠ 0 → f.functional = true →
      f.countNonFunctionalSensors < f.numSensorFailsForNonFunc) :
    (f.startMonitorBody p tA true ct reading j).1.numSensorFailsForNonFunc ≠
        0 →
    (f.startMonitorBody p tA true ct reading j).1.functional = true →
    (f.startMonitorBody p tA true ct reading j).1.countNonFunctionalSensors <
      (f.startMonitorBody p tA true ct reading
        j).1.numSensorFailsForNonFunc := by
  by_cases hpres : f.present = true
  · rcases hi : f.sensors[j]? with _ | s
    · intro h0 h1
      have hend : f.startMonitorBody p tA true ct reading j = (f, []) := by
        unfold Fan.startMonitorBody
        rw [if_pos hpres, hi]
      rw [hend] at h0 h1 ⊢
      exact hJ h0 h1
    · rcases hrd : reading j with _ | rv
      · exact (smBody_unreadable f p tA ct reading j s hpres hi hrd).2.2
      · intro h0 h1
        have hend : f.startMonitorBody p tA true ct reading j =
            (f.setSensor j
              { s with input := rv.1, target := rv.2 }).tachChanged p tA
              true ct j := by
          unfold Fan.startMonitorBody
          rw [if_pos hpres, hi]
          dsimp only
          rw [hrd]
        rw [hend] at h0 h1 ⊢
        set f1 := f.setSensor j { s with input := rv.1, target := rv.2 }
        have hnf := tachChanged_noFlag f1 p tA true ct j
        have hcnt : (f1.tachChanged p tA true ct j).1.countNonFunctionalSensors =
            f.countNonFunctionalSensors := by
          rw [count_eq_of_sensorsFunctional hnf.1]
          exact count_setSensor_same f j s _ hi rfl
        have hfun : (f1.tachChanged p tA true ct j).1.functional =
            f.functional := hnf.2
        have hthr : (f1.tachChanged p tA true ct j).1.numSensorFailsForNonFunc =
            f.numSensorFailsForNonFunc :=
          (frameEq_tachChanged f1 p tA true ct j).2.2.1
        rw [hcnt, hthr]
        rw [hthr] at h0
        rw [hfun] at h1
        exact hJ h0 h1
  · intro h0 h1
    have hend : f.startMonitorBody p tA true ct reading j = (f, []) := by
      unfold Fan.startMonitorBody
      rw [if_neg hpres]
    rw [hend] at h0 h1 ⊢
    exact hJ h0 h1

theorem smGo_J_pres (p tA : Bool) (ct : TachSensor → Bool)
    (reading : Nat → Option (Int × Int)) (l : List Nat) : ∀ f : Fan,
    (f.numSensorFailsForNonFunc ≠ 0 → f.functional = true →
      f.countNonFunctionalSensors < f.numSensorFailsForNonFunc) →
    ((Fan.startMonitorGo p tA true ct reading l f).1.numSensorFailsForNonFunc ≠
        0 →
      (Fan.startMonitorGo p tA true ct reading l f).1.functional = true →
      (Fan.startMonitorGo p tA true ct reading
          l f).1.countNonFunctionalSensors <
        (Fan.startMonitorGo p tA true ct reading
          l f).1.numSensorFailsForNonFunc) := by
  induction l with
  | nil => intro f hJ; exact hJ
  | cons j rest ih =>
    intro f hJ
    unfold Fan.startMonitorGo
    exact ih _ (smBody_J_pres f p tA ct reading j hJ)

theorem smGo_unreadable_main (p tA : Bool) (ct : TachSensor → Bool)
    (reading : Nat → Option (Int × Int)) (l : List Nat) (hnd : l.Nodup) :
    ∀ (f : Fan) (i : Nat) (s : TachSensor), i ∈ l → f.present = true →
    reading i = none → f.sensors[i]? = some s →
    ((Fan.startMonitorGo p tA true ct reading l f).1.sensors[i]? =
      some (s.setFunctional false)) ∧
    ((Fan.startMonitorGo p tA true ct reading
        l f).1.numSensorFailsForNonFunc ≠ 0 →
      (Fan.startMonitorGo p tA true ct reading l f).1.functional = true →
      (Fan.startMonitorGo p tA true ct reading
          l f).1.countNonFunctionalSensors <
        (Fan.startMonitorGo p tA true ct reading
          l f).1.numSensorFailsForNonFunc) ∧
    Output.fanStatusChange false ∈
      (Fan.startMonitorGo p tA true ct reading l f).2 := by
  induction l with
  | nil =>
    intro f i s hmem _ _ _
    exact absurd hmem (List.not_mem_nil i)
  | cons j rest ih =>
    intro f i s hmem hpres hrd hi
    have hnd2 := List.nodup_cons.mp hnd
    unfold Fan.startMonitorGo
    by_cases hij : j = i
    · subst hij
      have hb := smBody_unreadable f p tA ct reading j s hpres hi hrd
      refine ⟨?_, ?_, ?_⟩
      · rw [smGo_sensors_notMem p tA true ct reading rest _ j hnd2.1]
        exact hb.1
      · exact smGo_J_pres p tA ct reading rest _ hb.2.2
      · exact List.mem_append.mpr (Or.inl hb.2.1)
    · have hmem2 : i ∈ rest := by
        rcases List.mem_cons.mp hmem with h | h
        · exact absurd h.symm hij
        · exact h
      have hpres2 : (f.startMonitorBody p tA true ct reading j).1.present =
          true :=
        ((frameEq_smBody f p tA true ct reading j).2.2.2.1).trans hpres
      have hi2 : (f.startMonitorBody p tA true ct reading
          j).1.sensors[i]? = some s :=
        (smBody_sensors_ne f p tA true ct reading j i hij).trans hi
      obtain ⟨a, b, c⟩ := ih hnd2.2 _ i s hmem2 hpres2 hrd hi2
      exact ⟨a, b, List.mem_append.mpr (Or.inr c)⟩

/-- C9: a sensor whose reading cannot be obtained during the post-power-on
force-evaluation of Fan::startMonitor ends the call non-functional
(fail-safe, never unknown); whenever the configured threshold is nonzero
and is met by the resulting non-functional sensor count, the fan-level
functional flag ends false (notifications succeeding); and the
coordinator is notified through fanStatusChange. -/
theorem c9_failsafe (f : Fan) (p tA : Bool) (ct : TachSensor → Bool)
    (reading : Nat → Option (Int × Int)) (i : Nat) (s : TachSensor)
    (hpres : f.present = true) (hi : f.sensors[i]? = some s)
    (hrd : reading i = none) :
    ((f.startMonitor p tA true ct reading).1.sensors[i]? =
      some (s.setFunctional false)) ∧
    (s.setFunctional false).functional = false ∧
    (f.numSensorFailsForNonFunc ≠ 0 →
      f.numSensorFailsForNonFunc ≤
        (f.startMonitor p tA true ct reading).1.countNonFunctionalSensors →
      (f.startMonitor p tA true ct reading).1.functional = false) ∧
    Output.fanStatusChange false ∈
      (f.startMonitor p tA true ct reading).2 := by
  have hlen : i < f.sensors.length := (List.getElem?_eq_some_iff.mp hi).1
  unfold Fan.startMonitor
  dsimp only
  obtain ⟨a, b, c⟩ := smGo_unreadable_main p tA ct reading
    (List.range f.sensors.length) (List.nodup_range _)
    ({ f with
       monitorReady := true,
       countTimerEnabled :=
         (if f.hasCountTimer then true else f.countTimerEnabled) })
    i s (List.mem_range.mpr hlen) hpres hrd hi
  have hthr2 := (frameEq_smGo p tA true ct reading
    (List.range f.sensors.length)
    ({ f with
       monitorReady := true,
       countTimerEnabled :=
         (if f.hasCountTimer then true else f.countTimerEnabled) })).2.2.1
  refine ⟨a, rfl, ?_, c⟩
  intro hthr hge
  cases hq : (Fan.startMonitorGo p tA true ct reading
      (List.range f.sensors.length)
      ({ f with
         monitorReady := true,
         countTimerEnabled :=
           (if f.hasCountTimer then true else f.countTimerEnabled) })).1.functional with
  | false => rfl
  | true =>
    exfalso
    have hlt := b (by rw [hthr2]; exact hthr) hq
    rw [hthr2] at hlt
    exact absurd hge (Nat.not_le.mpr hlt)

/-- Witness for C9: fanB with no readings published; its single sensor
ends non-functional and the fan status change is reported. -/
theorem c9_failsafe_witness :
    ((fanB.startMonitor true false true (fun _ => true)
        (fun _ => none)).1.sensors[0]? = some (sB.setFunctional false)) ∧
    (sB.setFunctional false).functional = false ∧
    (fanB.numSensorFailsForNonFunc ≠ 0 →
      fanB.numSensorFailsForNonFunc ≤
        (fanB.startMonitor true false true (fun _ => true)
          (fun _ => none)).1.countNonFunctionalSensors →
      (fanB.startMonitor true false true (fun _ => true)
        (fun _ => none)).1.functional = false) ∧
    Output.fanStatusChange false ∈
      (fanB.startMonitor true false true (fun _ => true) (fun _ => none)).2 :=
  c9_failsafe fanB true false (fun _ => true) (fun _ => none) 0 sB rfl rfl
    rfl

theorem poBody_sensors_ne (f : Fan) (reading : Nat → Option (Int × Int))
    (i j : Nat) (hj : i ≠ j) :
    (f.powerOnSensorBody reading i).1.sensors[j]? = f.sensors[j]? := by
  unfold Fan.powerOnSensorBody
  rcases hi : f.sensors[i]? with _ | s
  · rfl
  · dsimp only
    rcases hrd : reading i with _ | rv
    · rfl
    · dsimp only
      unfold Fan.setSensor
      exact List.getElem?_set_ne hj

theorem poGo_sensors_notMem (reading : Nat → Option (Int × Int))
    (l : List Nat) : ∀ (f : Fan) (i : Nat), i ∉ l →
    (Fan.powerOnSensorsGo reading l f).1.sensors[i]? = f.sensors[i]? := by
  induction l with
  | nil => intro f i _; rfl
  | cons j rest ih =>
    intro f i hmem
    have hij : j ≠ i := fun h => hmem (h ▸ List.mem_cons_self j rest)
    have hrest : i ∉ rest := fun h => hmem (List.mem_cons_of_mem j h)
    unfold Fan.powerOnSensorsGo
    rw [ih _ i hrest]
    exact poBody_sensors_ne f reading j i hij

theorem poBody_mte (f : Fan) (reading : Nat → Option (Int × Int))
    (i : Nat) : (f.powerOnSensorBody reading i).1.monitorTimerEnabled =
      f.monitorTimerEnabled := by
  unfold Fan.powerOnSensorBody
  rcases hi : f.sensors[i]? with _ | s
  · rfl
  · dsimp only
    rcases hrd : reading i with _ | rv
    · rfl
    · rfl

theorem poGo_mte (reading : Nat → Option (Int × Int)) (l : List Nat) :
    ∀ f : Fan, (Fan.powerOnSensorsGo reading l f).1.monitorTimerEnabled =
      f.monitorTimerEnabled := by
  induction l with
  | nil => intro f; rfl
  | cons j rest ih =>
    intro f
    unfold Fan.powerOnSensorsGo
    rw [ih _, poBody_mte]

theorem poBody_readable (f : Fan) (reading : Nat → Option (Int × Int))
    (i : Nat) (s : TachSensor) (rv : Int × Int)
    (hi : f.sensors[i]? = some s) (hrd : reading i = some rv) :
    ∃ s3, (f.powerOnSensorBody reading i).1.sensors[i]? = some s3 ∧
      s3.functional = true ∧
      (s.method = MethodMode.count → s3.counter = 0) ∧
      (s.functional = false →
        Output.fanStatusChange true ∈ (f.powerOnSensorBody reading i).2) := by
  have hlen : i < f.sensors.length := (List.getElem?_eq_some_iff.mp hi).1
  unfold Fan.powerOnSensorBody
  rw [hi]
  dsimp only
  rw [hrd]
  dsimp only
  set s1 : TachSensor := { s with input := rv.1, target := rv.2 } with hs1
  have hs1f : s1.functional = s.functional := rfl
  have hs1m : s1.method = s.method := rfl
  by_cases hf : s.functional = true
  · rw [if_neg (show ¬((!s1.functional) = true) by simp [hs1f, hf])]
    try dsimp only
    by_cases hm : s.method = MethodMode.count
    · rw [if_pos (hs1m.trans hm)]
      refine ⟨s1.resetMethod,
        List.getElem?_set_self (by simpa using hlen),
        hs1f.trans hf, fun _ => rfl, fun hc => absurd hf (by simp [hc])⟩
    · rw [if_neg (fun hh => hm (hs1m.symm.trans hh))]
      exact ⟨s1, List.getElem?_set_self (by simpa using hlen),
        hs1f.trans hf, fun hc => absurd hc hm,
        fun hc => absurd hf (by simp [hc])⟩
  · have hf2 : s.functional = false := by simpa using hf
    rw [if_pos (show (!s1.functional) = true by simp [hs1f, hf2])]
    try dsimp only
    by_cases hm : s.method = MethodMode.count
    · rw [if_pos (show (s1.setFunctional true).method = MethodMode.count
        from hs1m.trans hm)]
      exact ⟨(s1.setFunctional true).resetMethod,
        List.getElem?_set_self (by simpa using hlen), rfl, fun _ => rfl,
        fun _ => by simp⟩
    · rw [if_neg (show ¬((s1.setFunctional true).method =
        MethodMode.count) from fun hh => hm (hs1m.symm.trans hh))]
      exact ⟨s1.setFunctional true,
        List.getElem?_set_self (by simpa using hlen), rfl,
        fun hc => absurd hc hm, fun _ => by simp⟩

theorem poBody_unreadable (f : Fan) (reading : Nat → Option (Int × Int))
    (i : Nat) (s : TachSensor) (hi : f.sensors[i]? = some s)
    (hrd : reading i = none) :
    f.powerOnSensorBody reading i = (f, [Output.logMsg]) := by
  unfold Fan.powerOnSensorBody
  rw [hi]
  dsimp only
  rw [hrd]

theorem poGo_main (reading : Nat → Option (Int × Int)) (l : List Nat)
    (hnd : l.Nodup) : ∀ (f : Fan) (i : Nat) (s : TachSensor), i ∈ l →
    f.sensors[i]? = some s →
    ((∀ rv : Int × Int, reading i = some rv →
      ∃ s3, (Fan.powerOnSensorsGo reading l f).1.sensors[i]? = some s3 ∧
        s3.functional = true ∧
        (s.method = MethodMode.count → s3.counter = 0) ∧
        (s.functional = false → Output.fanStatusChange true ∈
          (Fan.powerOnSensorsGo reading l f).2)) ∧
    (reading i = none →
      (Fan.powerOnSensorsGo reading l f).1.sensors[i]? = some s)) := by
  induction l with
  | nil =>
    intro f i s hmem _
    exact absurd hmem (List.not_mem_nil i)
  | cons j rest ih =>
    intro f i s hmem hi
    have hnd2 := List.nodup_cons.mp hnd
    unfold Fan.powerOnSensorsGo
    by_cases hij : j = i
    · subst hij
      constructor
      · intro rv hrd
        obtain ⟨s3, h1, h2, h3, h4⟩ :=
          poBody_readable f reading j s rv hi hrd
        refine ⟨s3, ?_, h2, h3, fun hc =>
          List.mem_append.mpr (Or.inl (h4 hc))⟩
        rw [poGo_sensors_notMem reading rest _ j hnd2.1]
        exact h1
      · intro hrd
        rw [poGo_sensors_notMem reading rest _ j hnd2.1]
        rw [poBody_unreadable f reading j s hi hrd]
        exact hi
    · have hmem2 : i ∈ rest := by
        rcases List.mem_cons.mp hmem with h | h
        · exact absurd h.symm hij
        · exact h
      have hi2 : (f.powerOnSensorBody reading j).1.sensors[i]? = some s :=
        (poBody_sensors_ne f reading j i hij).trans hi
      obtain ⟨ha, hb⟩ := ih hnd2.2 _ i s hmem2 hi2
      constructor
      · intro rv hrd
        obtain ⟨s3, h1, h2, h3, h4⟩ := ha rv hrd
        exact ⟨s3, h1, h2, h3, fun hc =>
          List.mem_append.mpr (Or.inr (h4 hc))⟩
      · exact hb

/-- C10: on a power-on event while the fan is present (delivered before
the monitor-start delay expires — the handler merely re-arms that timer),
every sensor whose reading is available is refreshed and reset: it ends
functional, a count-method sensor's fault counter is zeroed, and a
formerly non-functional sensor triggers a coordinator fanStatusChange
report; an unreadable sensor is left untouched for the later
force-evaluation; and (with notifications succeeding) the fan-level flag
ends true whenever the resulting non-functional count is below the
nonzero configured threshold.  The spec does not mention this power-on
reset. -/
theorem c10_power_on_reset (f : Fan) (reading : Nat → Option (Int × Int))
    (hpres : f.present = true) :
    ((f.powerStateChanged true true reading).1.monitorTimerEnabled =
      true) ∧
    (∀ (i : Nat) (s : TachSensor) (rv : Int × Int),
      f.sensors[i]? = some s → reading i = some rv →
      ∃ s3, (f.powerStateChanged true true reading).1.sensors[i]? =
          some s3 ∧
        s3.functional = true ∧
        (s.method = MethodMode.count → s3.counter = 0) ∧
        (s.functional = false → Output.fanStatusChange true ∈
          (f.powerStateChanged true true reading).2)) ∧
    (∀ (i : Nat) (s : TachSensor), f.sensors[i]? = some s →
      reading i = none →
      (f.powerStateChanged true true reading).1.sensors[i]? = some s) ∧
    (f.numSensorFailsForNonFunc ≠ 0 →
      (f.powerStateChanged true true reading).1.countNonFunctionalSensors <
        f.numSensorFailsForNonFunc →
      (f.powerStateChanged true true reading).1.functional = true) := by
  unfold Fan.powerStateChanged
  rw [if_pos rfl]
  dsimp only
  rw [if_pos (show ({ f with monitorTimerEnabled := true } :
    Fan).present = true from hpres)]
  dsimp only
  set f0 : Fan := { f with monitorTimerEnabled := true } with hf0
  set r1 := Fan.powerOnSensorsGo reading (List.range f.sensors.length) f0
    with hr1
  have hthr1 : r1.1.numSensorFailsForNonFunc =
      f.numSensorFailsForNonFunc := by
    rw [hr1]
    exact poGo_thr reading (List.range f.sensors.length) f0
  have hmte : r1.1.monitorTimerEnabled = true := by
    rw [hr1]
    exact poGo_mte reading (List.range f.sensors.length) f0
  by_cases hz : f.numSensorFailsForNonFunc = 0
  · rw [if_neg (by simp [hthr1, hz])]
    refine ⟨hmte, ?_, ?_, ?_⟩
    · intro i s rv hi hrd
      have hlen : i < f.sensors.length :=
        (List.getElem?_eq_some_iff.mp hi).1
      obtain ⟨ha, _⟩ := poGo_main reading (List.range f.sensors.length)
        (List.nodup_range _) f0 i s (List.mem_range.mpr hlen) hi
      obtain ⟨s3, h1, h2, h3, h4⟩ := ha rv hrd
      exact ⟨s3, h1, h2, h3, fun hc =>
        List.mem_append.mpr (Or.inl (h4 hc))⟩
    · intro i s hi hrd
      have hlen : i < f.sensors.length :=
        (List.getElem?_eq_some_iff.mp hi).1
      obtain ⟨_, hb⟩ := poGo_main reading (List.range f.sensors.length)
        (List.nodup_range _) f0 i s (List.mem_range.mpr hlen) hi
      exact hb hrd
    · intro hthr _
      exact absurd hz hthr
  · rw [if_pos (by simp [hthr1, hz])]
    by_cases hcond : (!r1.1.functional &&
        decide (r1.1.countNonFunctionalSensors <
          r1.1.numSensorFailsForNonFunc)) = true
    · rw [if_pos hcond]
      rw [updateInventory_fst]
      refine ⟨hmte, ?_, ?_, ?_⟩
      · intro i s rv hi hrd
        have hlen : i < f.sensors.length :=
          (List.getElem?_eq_some_iff.mp hi).1
        obtain ⟨ha, _⟩ := poGo_main reading (List.range f.sensors.length)
          (List.nodup_range _) f0 i s (List.mem_range.mpr hlen) hi
        obtain ⟨s3, h1, h2, h3, h4⟩ := ha rv hrd
        refine ⟨s3, h1, h2, h3, fun hc => ?_⟩
        rw [updateInventory_snd]
        exact List.mem_append.mpr (Or.inl (h4 hc))
      · intro i s hi hrd
        have hlen : i < f.sensors.length :=
          (List.getElem?_eq_some_iff.mp hi).1
        obtain ⟨_, hb⟩ := poGo_main reading (List.range f.sensors.length)
          (List.nodup_range _) f0 i s (List.mem_range.mpr hlen) hi
        exact hb hrd
      · intro _ _
        rfl
    · rw [if_neg hcond]
      refine ⟨hmte, ?_, ?_, ?_⟩
      · intro i s rv hi hrd
        have hlen : i < f.sensors.length :=
          (List.getElem?_eq_some_iff.mp hi).1
        obtain ⟨ha, _⟩ := poGo_main reading (List.range f.sensors.length)
          (List.nodup_range _) f0 i s (List.mem_range.mpr hlen) hi
        obtain ⟨s3, h1, h2, h3, h4⟩ := ha rv hrd
        exact ⟨s3, h1, h2, h3, fun hc =>
          List.mem_append.mpr (Or.inl (h4 hc))⟩
      · intro i s hi hrd
        have hlen : i < f.sensors.length :=
          (List.getElem?_eq_some_iff.mp hi).1
        obtain ⟨_, hb⟩ := poGo_main reading (List.range f.sensors.length)
          (List.nodup_range _) f0 i s (List.mem_range.mpr hlen) hi
        exact hb hrd
      · intro _ hcnt
        cases hq : r1.1.functional with
        | true => rfl
        | false =>
          exfalso
          exact hcond (by
            simp only [hq, Bool.not_false, Bool.true_and,
              decide_eq_true_eq, hthr1]
            exact hcnt)

/-- Witness for C10: a power-on while present, with the sensor readable;
it is reset functional with its counter zeroed. -/
theorem c10_power_on_reset_witness :
    (({ fanB with sensors :=
        [{ sB with functional := false, counter := 2 }] } :
        Fan).powerStateChanged true true
      (fun _ => some (1000, 1000))).1.monitorTimerEnabled = true ∧
    (∃ s3, (({ fanB with sensors :=
        [{ sB with functional := false, counter := 2 }] } :
        Fan).powerStateChanged true true
      (fun _ => some (1000, 1000))).1.sensors[0]? = some s3 ∧
      s3.functional = true ∧
      s3.counter = 0) := by
  have h := c10_power_on_reset
    ({ fanB with sensors :=
      [{ sB with functional := false, counter := 2 }] })
    (fun _ => some (1000, 1000)) rfl
  refine ⟨h.1, ?_⟩
  obtain ⟨s3, h1, h2, h3, _⟩ := h.2.1 0
    ({ sB with functional := false, counter := 2 }) (1000, 1000) rfl rfl
  exact ⟨s3, h1, h2, h3 rfl⟩

end FanMonitor
